import Mathlib

/-!
# mame2003-xtreme libretro layer: shallow embedding and verified properties

The development embeds the reconciliation logic of `src/libretro/libretro.c`
and `src/libretro/osd.c`:

* the pointer-delta helper `get_pointer_delta`,
* the audio pacing pair `osd_start_audio_stream` / `osd_update_audio_stream`,
* the per-frame input poll of `retro_run`,
* the path construction of `osd_get_path_info` / `osd_fopen` and the directory
  helper `osd_create_directory`,
* the snapshot sequencers `retro_serialize` / `retro_unserialize`,
* the content loader `retro_load_game` with `getDriverIndex`, `normalizePath`
  and `peelPathItem`.

Conventions.

* C `int16_t` values are integers in `[-32768, 32767]`; a conversion to
  `int16_t` is `toInt16`.  `int` values are unbounded integers, except in the
  audio pacing code on the machine arithmetic, where an `int` result is wrapped
  to 32 bits (`toInt32`).
* The audio pacing code is embedded twice.  `osd_start_audio_stream` and
  `osd_update_audio_stream` read the C `float` quantities (`frames_per_second`,
  `delta_samples`) as exact rationals and `(int)` as truncation toward zero
  (`c_int_cast`); the long-run properties, which are statements of exact
  arithmetic, are about them.  `osd_start_audio_stream_fp` and
  `osd_update_audio_stream_fp` take the `float` operations as a parameter
  (`FloatOps`), of which only `FloatLaws` is assumed; the properties of a single
  call are about them, and `x86_float` is IEEE 754 single precision with the
  `(int)` conversion of x86-64.
* C arrays are total functions of the index; C strings are lists of characters.
* Global variables read or written by a function are fields of an explicit
  state record that the function takes and returns.
* Calls of `log_cb` only produce log output and are left out; the callback is
  taken to be installed where the source calls it unguarded.
* Functions of the machine core and of the C library that are not part of the
  sources are parameters of the embedding (`SnapshotCore`, `FsOracle`,
  `InputCb`, the `run_game` and frontend-reply arguments of `retro_load_game`).

The file has two parts: all definitions first, then all theorems.
-/

namespace Mame2003

/-! ## Part I. Definitions -/

/-! ### Machine integers -/

/-- Conversion of an integer value to `int16_t` (two's-complement wrap). -/
def toInt16 (x : Int) : Int := (x + 32768) % 65536 - 32768

/-- The value range of `int16_t`. -/
def isInt16 (x : Int) : Prop := -32768 ≤ x ∧ x ≤ 32767

/-! ### `get_pointer_delta` (libretro.c, lines 385-403) -/

/-- Embedding of `int16_t get_pointer_delta(int16_t coord, int16_t *prev_coord)`.
The argument `prev_coord` is the value stored behind the pointer on entry; the
result is the pair (returned `delta`, value stored behind the pointer on exit).
The three branches are the three paths of the source: reset when either side is
zero, a wrapped difference when the coordinate moved, and nothing at all when it
did not move. -/
def get_pointer_delta (coord : Int) (prev_coord : Int) : Int × Int :=
  if prev_coord = 0 ∨ coord = 0 then
    (0, coord)
  else
    if coord ≠ prev_coord then
      (toInt16 (coord - prev_coord), coord)
    else
      (0, prev_coord)

/-! ### Audio pacing (libretro.c, lines 678-751) -/

/-- Truncation toward zero: the C conversion `(int)x` of a floating-point value
whose truncation fits in an `int`.  The result is not bounded; the conversion of
a value that does not fit is `f32_to_int`. -/
def c_int_cast (q : ℚ) : Int := if 0 ≤ q then ⌊q⌋ else ⌈q⌉

/-- The globals of the audio pacing code.

* `samplerate` is `options.samplerate`, `frames_per_second` is
  `Machine->drv->frames_per_second`, `sample_rate` is `Machine->sample_rate`;
* `delta_samples`, `samples_per_frame`, `orig_samples_per_frame`, `usestereo`
  are the variables of the same name;
* `samples_buffer` and `conversion_buffer` record the number of sample frames
  the `calloc`ed buffer holds (`none` while not allocated);
* `audio_batch` lists the frame counts passed to `audio_batch_cb`, most recent
  first. -/
structure AudioState where
  samplerate : Int
  frames_per_second : ℚ
  sample_rate : Int
  delta_samples : ℚ
  samples_per_frame : Int
  orig_samples_per_frame : Int
  usestereo : Int
  samples_buffer : Option Int
  conversion_buffer : Option Int
  audio_batch : List Int

/-- Embedding of `int osd_start_audio_stream(int stereo)` in exact arithmetic: the
returned value and the globals after the call.  The threshold test and the
quotient are those of the rational numbers, without rounding, and the quotient by
a zero frame rate is 0; `osd_start_audio_stream_fp` is the function on the
machine arithmetic. -/
def osd_start_audio_stream (stereo : Int) (s : AudioState) : Int × AudioState :=
  let s1 := { s with
    sample_rate := if s.frames_per_second * 1000 < (s.samplerate : ℚ) then 22050 else s.samplerate }
  let s2 := { s1 with delta_samples := 0, usestereo := if stereo ≠ 0 then 1 else 0 }
  let spf := c_int_cast ((s2.sample_rate : ℚ) / s2.frames_per_second)
  let s3 := { s2 with samples_per_frame := spf, orig_samples_per_frame := spf }
  if s3.sample_rate = 0 then (0, s3)
  else
    let s4 := { s3 with samples_buffer := some (s3.samples_per_frame + 16) }
    let s5 := if s4.usestereo = 0 then
        { s4 with conversion_buffer := some (s4.samples_per_frame + 16) } else s4
    (s5.samples_per_frame, s5)

/-- Embedding of `int osd_update_audio_stream(INT16 *buffer)` in exact arithmetic
(`osd_update_audio_stream_fp` is the function on the machine arithmetic);
`buffer` tells whether the pointer is non-null.  The copy into the working buffer
and the mono duplication only move sample data; what is kept of them is the frame
count handed to `audio_batch_cb`, which is `samples_per_frame` on both the stereo
and the mono path. -/
def osd_update_audio_stream (buffer : Bool) (s : AudioState) : Int × AudioState :=
  if s.sample_rate ≠ 0 ∧ buffer = true then
    let s1 := { s with audio_batch := s.samples_per_frame :: s.audio_batch }
    let s2 := if s1.samples_per_frame ≠ s1.orig_samples_per_frame then
        { s1 with samples_per_frame := s1.orig_samples_per_frame } else s1
    let s3 := { s2 with delta_samples := s2.delta_samples +
        (((s2.sample_rate : ℚ) / s2.frames_per_second) - (s2.orig_samples_per_frame : ℚ)) }
    let s4 := if s3.delta_samples ≥ 1 then
        let integer_delta := c_int_cast s3.delta_samples
        let s3a := if integer_delta ≤ 16 then
            { s3 with samples_per_frame := s3.samples_per_frame + integer_delta } else s3
        { s3a with delta_samples := s3a.delta_samples - (integer_delta : ℚ) }
      else s3
    (s4.samples_per_frame, s4)
  else (s.samples_per_frame, s)

/-- The globals after `N` consecutive calls of `osd_update_audio_stream` with a
non-null buffer. -/
def run_updates : Nat → AudioState → AudioState
  | 0, s => s
  | n + 1, s => run_updates n (osd_update_audio_stream true s).2

/-- Total number of sample frames handed to `audio_batch_cb` so far. -/
def emitted_total (s : AudioState) : Int := s.audio_batch.sum

/-- Number of sample frames emitted by `N` consecutive deliveries starting in `s`. -/
def samples_emitted (N : Nat) (s : AudioState) : Int :=
  emitted_total (run_updates N s) - emitted_total s

/-- The accumulator right after the per-call increment
`delta_samples += sample_rate / frames_per_second - orig_samples_per_frame`. -/
def drift_after_increment (s : AudioState) : ℚ :=
  s.delta_samples + (((s.sample_rate : ℚ) / s.frames_per_second) - (s.orig_samples_per_frame : ℚ))

/-- The rate `osd_start_audio_stream` stores in `Machine->sample_rate`. -/
def effective_rate (s : AudioState) : Int :=
  if s.frames_per_second * 1000 < (s.samplerate : ℚ) then 22050 else s.samplerate

/-- Invariant of the pacing loop after `k` deliveries from a started stream of
rate `r`, frame rate `f` and nominal count `n0`; `base` is the number of frames
emitted before the stream was started. -/
structure PacingInv (r : Int) (f : ℚ) (n0 : Int) (base : Int) (k : Nat) (s : AudioState) :
    Prop where
  rate : s.sample_rate = r
  fps : s.frames_per_second = f
  orig : s.orig_samples_per_frame = n0
  lo : 0 ≤ s.delta_samples
  hi : s.delta_samples < 1
  spf_lo : n0 ≤ s.samples_per_frame
  spf_hi : s.samples_per_frame ≤ n0 + 1
  bal : (emitted_total s : ℚ) + s.samples_per_frame + s.delta_samples
          = base + (k + 1) * (n0 : ℚ) + k * ((r : ℚ) / f - n0)

/-- A 44100 Hz configuration on a 57 frames-per-second machine, before the stream
is started (44100 / 57 is not an integer). -/
def audio_example : AudioState :=
  { samplerate := 44100, frames_per_second := 57, sample_rate := 0, delta_samples := 0,
    samples_per_frame := 0, orig_samples_per_frame := 0, usestereo := 0,
    samples_buffer := none, conversion_buffer := none, audio_batch := [] }

/-! ### Audio pacing on the machine arithmetic (libretro.c, lines 678-751)

The definitions of this section embed `osd_start_audio_stream` and
`osd_update_audio_stream` a second time, with the `float` operations and the
`(int)` conversion as the machine performs them instead of exact arithmetic, and
with the `int` additions wrapping at 32 bits.  The `float` operations are a
parameter (`FloatOps`); `x86_float` is IEEE 754 single precision with the
conversion of x86-64. -/

/-- Conversion of an integer value to a 32-bit `int` (two's-complement wrap). -/
def toInt32 (x : Int) : Int := (x + 2147483648) % 4294967296 - 2147483648

/-- The `float` operations the audio pacing code uses, on a type `F` of `float`
values: the conversion of an `int` to `float` (`ofInt`), the four arithmetic
operations, the comparisons `<` (`lt`) and `>=` (`ge`), and the conversion
`(int)x` (`toInt`).  `val x` is the number a finite `x` stands for, and `none`
for an infinity or a NaN. -/
structure FloatOps (F : Type) where
  ofInt : Int → F
  add : F → F → F
  sub : F → F → F
  mul : F → F → F
  div : F → F → F
  lt : F → F → Bool
  ge : F → F → Bool
  toInt : F → Int
  val : F → Option ℚ

/-- What the properties below use of a `float` arithmetic.  Nothing is assumed
about rounding, nor about the conversion `(int)x` of a value that does not fit in
an `int`.

* `zero_val`, `one_val`: the constants `0.0f` and `1.0f` are the numbers 0 and 1;
* `ge_val`: `>=` on finite values compares the numbers;
* `toInt_val`: `(int)x` of a finite `x` strictly between -2^31 and 2^31 is the
  truncation of `x` toward zero. -/
structure FloatLaws {F : Type} (ops : FloatOps F) : Prop where
  zero_val : ops.val (ops.ofInt 0) = some 0
  one_val : ops.val (ops.ofInt 1) = some 1
  ge_val : ∀ (x y : F) (p q : ℚ), ops.val x = some p → ops.val y = some q →
    (ops.ge x y = true ↔ q ≤ p)
  toInt_val : ∀ (x : F) (q : ℚ), ops.val x = some q → -2147483648 < q → q < 2147483648 →
    ops.toInt x = c_int_cast q

/-- The globals of the audio pacing code with `float` values in `F`; the fields
are those of `AudioState`.  `frames_per_second` and `delta_samples` are the two
`float` variables; the rates and the counts are `int` variables. -/
structure AudioStateFp (F : Type) where
  samplerate : Int
  frames_per_second : F
  sample_rate : Int
  delta_samples : F
  samples_per_frame : Int
  orig_samples_per_frame : Int
  usestereo : Int
  samples_buffer : Option Int
  conversion_buffer : Option Int
  audio_batch : List Int

/-- The rate `osd_start_audio_stream` stores in `Machine->sample_rate`: the test
`frames_per_second * 1000 < options.samplerate` converts both integers to `float`
and is evaluated in `float`. -/
def effective_rate_fp {F : Type} (ops : FloatOps F) (s : AudioStateFp F) : Int :=
  if ops.lt (ops.mul s.frames_per_second (ops.ofInt 1000)) (ops.ofInt s.samplerate) = true
  then 22050 else s.samplerate

/-- Embedding of `int osd_start_audio_stream(int stereo)` on the machine
arithmetic: the quotient `sample_rate / frames_per_second` is a `float` division
of the converted rate, and the assignment to the `int` variable
`samples_per_frame` converts it with `(int)`.  The constant `0.0f` is
`ops.ofInt 0`.  The buffers record the element count `samples_per_frame+16`
passed to `calloc`, an `int` addition. -/
def osd_start_audio_stream_fp {F : Type} (ops : FloatOps F) (stereo : Int)
    (s : AudioStateFp F) : Int × AudioStateFp F :=
  let s1 := { s with sample_rate := effective_rate_fp ops s }
  let s2 := { s1 with delta_samples := ops.ofInt 0, usestereo := if stereo ≠ 0 then 1 else 0 }
  let spf := ops.toInt (ops.div (ops.ofInt s2.sample_rate) s2.frames_per_second)
  let s3 := { s2 with samples_per_frame := spf, orig_samples_per_frame := spf }
  if s3.sample_rate = 0 then (0, s3)
  else
    let s4 := { s3 with samples_buffer := some (toInt32 (s3.samples_per_frame + 16)) }
    let s5 := if s4.usestereo = 0 then
        { s4 with conversion_buffer := some (toInt32 (s4.samples_per_frame + 16)) } else s4
    (s5.samples_per_frame, s5)

/-- The accumulator right after the per-call increment
`delta_samples += (sample_rate / frames_per_second) - orig_samples_per_frame`,
all three operations in `float`. -/
def drift_after_increment_fp {F : Type} (ops : FloatOps F) (s : AudioStateFp F) : F :=
  ops.add s.delta_samples
    (ops.sub (ops.div (ops.ofInt s.sample_rate) s.frames_per_second)
      (ops.ofInt s.orig_samples_per_frame))

/-- Embedding of `int osd_update_audio_stream(INT16 *buffer)` on the machine
arithmetic; `buffer` tells whether the pointer is non-null.  As in
`osd_update_audio_stream`, what is kept of the copy and of the mono duplication
is the frame count handed to `audio_batch_cb`.  The constant `1.0f` is
`ops.ofInt 1`; `samples_per_frame += integer_delta` is an `int` addition, and
`delta_samples -= integer_delta` converts `integer_delta` to `float`. -/
def osd_update_audio_stream_fp {F : Type} (ops : FloatOps F) (buffer : Bool)
    (s : AudioStateFp F) : Int × AudioStateFp F :=
  if s.sample_rate ≠ 0 ∧ buffer = true then
    let s1 := { s with audio_batch := s.samples_per_frame :: s.audio_batch }
    let s2 := if s1.samples_per_frame ≠ s1.orig_samples_per_frame then
        { s1 with samples_per_frame := s1.orig_samples_per_frame } else s1
    let s3 := { s2 with delta_samples := drift_after_increment_fp ops s2 }
    let s4 := if ops.ge s3.delta_samples (ops.ofInt 1) = true then
        let integer_delta := ops.toInt s3.delta_samples
        let s3a := if integer_delta ≤ 16 then
            { s3 with samples_per_frame := toInt32 (s3.samples_per_frame + integer_delta) }
          else s3
        { s3a with delta_samples := ops.sub s3a.delta_samples (ops.ofInt integer_delta) }
      else s3
    (s4.samples_per_frame, s4)
  else (s.samples_per_frame, s)

/-- A value of the C type `float` (IEEE 754 single precision): a finite number,
an infinity with its sign, or a NaN.  The two zeros are not told apart. -/
inductive Binary32 where
  | finite (q : ℚ)
  | infinite (negative : Bool)
  | nan
deriving DecidableEq

/-- Rounding of a number to the nearest integer, a tie going to the even one. -/
def round_half_even (x : ℚ) : Int :=
  if x - ⌊x⌋ < 1 / 2 then ⌊x⌋
  else if 1 / 2 < x - ⌊x⌋ then ⌊x⌋ + 1
  else if ⌊x⌋ % 2 = 0 then ⌊x⌋ else ⌊x⌋ + 1

/-- The exponent `e` of the spacing `2^e` of single-precision numbers around a
non-zero `q`: 24 significant bits, and no spacing finer than `2^-149`. -/
def quantum_exp (q : ℚ) : Int := max (-149) (Int.log 2 |q| - 23)

/-- Rounding of a number to single precision (round to nearest, ties to even); a
result of magnitude `2^128` or more is an infinity. -/
def round32 (q : ℚ) : Binary32 :=
  if q = 0 then Binary32.finite 0
  else if (2 : ℚ) ^ (128 : Int)
      ≤ |(round_half_even (q / (2 : ℚ) ^ quantum_exp q) : ℚ) * (2 : ℚ) ^ quantum_exp q|
    then Binary32.infinite (decide (q < 0))
  else Binary32.finite
    ((round_half_even (q / (2 : ℚ) ^ quantum_exp q) : ℚ) * (2 : ℚ) ^ quantum_exp q)

/-- Single-precision negation. -/
def f32_neg : Binary32 → Binary32
  | Binary32.finite a => Binary32.finite (-a)
  | Binary32.infinite s => Binary32.infinite (!s)
  | Binary32.nan => Binary32.nan

/-- Single-precision addition. -/
def f32_add : Binary32 → Binary32 → Binary32
  | Binary32.finite a, Binary32.finite b => round32 (a + b)
  | Binary32.finite _, Binary32.infinite t => Binary32.infinite t
  | Binary32.infinite s, Binary32.finite _ => Binary32.infinite s
  | Binary32.infinite s, Binary32.infinite t => if s = t then Binary32.infinite s else Binary32.nan
  | Binary32.nan, _ => Binary32.nan
  | _, Binary32.nan => Binary32.nan

/-- Single-precision multiplication. -/
def f32_mul : Binary32 → Binary32 → Binary32
  | Binary32.finite a, Binary32.finite b => round32 (a * b)
  | Binary32.finite a, Binary32.infinite t =>
      if a = 0 then Binary32.nan else Binary32.infinite (xor (decide (a < 0)) t)
  | Binary32.infinite s, Binary32.finite b =>
      if b = 0 then Binary32.nan else Binary32.infinite (xor s (decide (b < 0)))
  | Binary32.infinite s, Binary32.infinite t => Binary32.infinite (xor s t)
  | Binary32.nan, _ => Binary32.nan
  | _, Binary32.nan => Binary32.nan

/-- Single-precision division; a non-zero number divided by zero is an infinity,
zero divided by zero is a NaN. -/
def f32_div : Binary32 → Binary32 → Binary32
  | Binary32.finite a, Binary32.finite b =>
      if b = 0 then (if a = 0 then Binary32.nan else Binary32.infinite (decide (a < 0)))
      else round32 (a / b)
  | Binary32.finite _, Binary32.infinite _ => Binary32.finite 0
  | Binary32.infinite s, Binary32.finite b => Binary32.infinite (xor s (decide (b < 0)))
  | Binary32.infinite _, Binary32.infinite _ => Binary32.nan
  | Binary32.nan, _ => Binary32.nan
  | _, Binary32.nan => Binary32.nan

/-- Single-precision `<`; false when an operand is a NaN. -/
def f32_lt : Binary32 → Binary32 → Bool
  | Binary32.finite a, Binary32.finite b => decide (a < b)
  | Binary32.finite _, Binary32.infinite t => !t
  | Binary32.infinite s, Binary32.finite _ => s
  | Binary32.infinite s, Binary32.infinite t => s && !t
  | Binary32.nan, _ => false
  | _, Binary32.nan => false

/-- Single-precision `>=`; false when an operand is a NaN. -/
def f32_ge : Binary32 → Binary32 → Bool
  | Binary32.finite a, Binary32.finite b => decide (b ≤ a)
  | Binary32.finite _, Binary32.infinite t => t
  | Binary32.infinite s, Binary32.finite _ => !s
  | Binary32.infinite s, Binary32.infinite t => !s || t
  | Binary32.nan, _ => false
  | _, Binary32.nan => false

/-- The conversion `(int)x` of x86-64 (`cvttss2si`): truncation toward zero when
the result fits in an `int`, and `INT_MIN` otherwise, also for an infinity or a
NaN.  ISO C leaves the conversion undefined where the result does not fit. -/
def f32_to_int : Binary32 → Int
  | Binary32.finite q =>
      if -2147483648 ≤ c_int_cast q ∧ c_int_cast q ≤ 2147483647 then c_int_cast q
      else -2147483648
  | _ => -2147483648

/-- The number a finite single-precision value stands for. -/
def f32_val : Binary32 → Option ℚ
  | Binary32.finite q => some q
  | _ => none

/-- Single-precision arithmetic with the conversions of x86-64. -/
def x86_float : FloatOps Binary32 :=
  { ofInt := fun n => round32 (n : ℚ)
    add := f32_add
    sub := fun x y => f32_add x (f32_neg y)
    mul := f32_mul
    div := f32_div
    lt := f32_lt
    ge := f32_ge
    toInt := f32_to_int
    val := f32_val }

/-- A running 44100 Hz / 60 fps stream (nominal count 735, stereo, working buffer
of 751 frames) whose accumulator holds `delta`. -/
def audio_fp_running (delta : ℚ) : AudioStateFp Binary32 :=
  { samplerate := 44100, frames_per_second := Binary32.finite 60, sample_rate := 44100,
    delta_samples := Binary32.finite delta,
    samples_per_frame := 735, orig_samples_per_frame := 735, usestereo := 1,
    samples_buffer := some 751, conversion_buffer := none, audio_batch := [] }

/-- A 48000 Hz configuration on a 40 frames-per-second machine, before the stream
is started. -/
def audio_fp_example : AudioStateFp Binary32 :=
  { samplerate := 48000, frames_per_second := Binary32.finite 40, sample_rate := 0,
    delta_samples := Binary32.finite 0,
    samples_per_frame := 0, orig_samples_per_frame := 0, usestereo := 0,
    samples_buffer := none, conversion_buffer := none, audio_batch := [] }

/-! ### Input poll of `retro_run` (libretro.c, lines 405-496)

The identifiers below come from `libretro.h`, which is included by the sources
but is not one of them. -/

/-- Modelled from the spec: `RETRO_DEVICE_JOYPAD` of `libretro.h` (header not among
the sources); the device classes keep the numbering of the public libretro API. -/
def RETRO_DEVICE_JOYPAD : Nat := 1
/-- Modelled from the spec: `RETRO_DEVICE_MOUSE` of `libretro.h`. -/
def RETRO_DEVICE_MOUSE : Nat := 2
/-- Modelled from the spec: `RETRO_DEVICE_KEYBOARD` of `libretro.h`. -/
def RETRO_DEVICE_KEYBOARD : Nat := 3
/-- Modelled from the spec: `RETRO_DEVICE_ANALOG` of `libretro.h`. -/
def RETRO_DEVICE_ANALOG : Nat := 5
/-- Modelled from the spec: `RETRO_DEVICE_POINTER` of `libretro.h`. -/
def RETRO_DEVICE_POINTER : Nat := 6

/-- Modelled from the spec: joypad control id of `libretro.h`.  The sixteen joypad
ids are 0..15, so that with the two mouse-button lines 16 and 17 every player
owns 18 consecutive lines of the 72-line table the spec describes. -/
def RETRO_DEVICE_ID_JOYPAD_B : Nat := 0
/-- Modelled from the spec: joypad control id of `libretro.h`. -/
def RETRO_DEVICE_ID_JOYPAD_Y : Nat := 1
/-- Modelled from the spec: joypad control id of `libretro.h`. -/
def RETRO_DEVICE_ID_JOYPAD_SELECT : Nat := 2
/-- Modelled from the spec: joypad control id of `libretro.h`. -/
def RETRO_DEVICE_ID_JOYPAD_START : Nat := 3
/-- Modelled from the spec: joypad control id of `libretro.h`. -/
def RETRO_DEVICE_ID_JOYPAD_UP : Nat := 4
/-- Modelled from the spec: joypad control id of `libretro.h`. -/
def RETRO_DEVICE_ID_JOYPAD_DOWN : Nat := 5
/-- Modelled from the spec: joypad control id of `libretro.h`. -/
def RETRO_DEVICE_ID_JOYPAD_LEFT : Nat := 6
/-- Modelled from the spec: joypad control id of `libretro.h`. -/
def RETRO_DEVICE_ID_JOYPAD_RIGHT : Nat := 7
/-- Modelled from the spec: joypad control id of `libretro.h`. -/
def RETRO_DEVICE_ID_JOYPAD_A : Nat := 8
/-- Modelled from the spec: joypad control id of `libretro.h`. -/
def RETRO_DEVICE_ID_JOYPAD_X : Nat := 9
/-- Modelled from the spec: joypad control id of `libretro.h`. -/
def RETRO_DEVICE_ID_JOYPAD_L : Nat := 10
/-- Modelled from the spec: joypad control id of `libretro.h`. -/
def RETRO_DEVICE_ID_JOYPAD_R : Nat := 11
/-- Modelled from the spec: joypad control id of `libretro.h`. -/
def RETRO_DEVICE_ID_JOYPAD_L2 : Nat := 12
/-- Modelled from the spec: joypad control id of `libretro.h`. -/
def RETRO_DEVICE_ID_JOYPAD_R2 : Nat := 13
/-- Modelled from the spec: joypad control id of `libretro.h`. -/
def RETRO_DEVICE_ID_JOYPAD_L3 : Nat := 14
/-- Modelled from the spec: joypad control id of `libretro.h`. -/
def RETRO_DEVICE_ID_JOYPAD_R3 : Nat := 15

/-- Modelled from the spec: analog stick index of `libretro.h`. -/
def RETRO_DEVICE_INDEX_ANALOG_LEFT : Nat := 0
/-- Modelled from the spec: analog stick index of `libretro.h`. -/
def RETRO_DEVICE_INDEX_ANALOG_RIGHT : Nat := 1
/-- Modelled from the spec: analog axis id of `libretro.h`. -/
def RETRO_DEVICE_ID_ANALOG_X : Nat := 0
/-- Modelled from the spec: analog axis id of `libretro.h`. -/
def RETRO_DEVICE_ID_ANALOG_Y : Nat := 1

/-- Modelled from the spec: mouse control id of `libretro.h`. -/
def RETRO_DEVICE_ID_MOUSE_X : Nat := 0
/-- Modelled from the spec: mouse control id of `libretro.h`. -/
def RETRO_DEVICE_ID_MOUSE_Y : Nat := 1
/-- Modelled from the spec: mouse control id of `libretro.h`. -/
def RETRO_DEVICE_ID_MOUSE_LEFT : Nat := 2
/-- Modelled from the spec: mouse control id of `libretro.h`. -/
def RETRO_DEVICE_ID_MOUSE_RIGHT : Nat := 3

/-- Modelled from the spec: pointer control id of `libretro.h`. -/
def RETRO_DEVICE_ID_POINTER_X : Nat := 0
/-- Modelled from the spec: pointer control id of `libretro.h`. -/
def RETRO_DEVICE_ID_POINTER_Y : Nat := 1
/-- Modelled from the spec: pointer control id of `libretro.h`. -/
def RETRO_DEVICE_ID_POINTER_PRESSED : Nat := 2

/-- The frontend callback `input_cb(port, device, index, id)`.  Its C return type
is `int16_t`, so a reading is a 16-bit signed value and the stores into the
`int16_t` arrays `analogjoy`, `mouse_x`, `mouse_y` keep it unchanged. -/
abbrev InputCb := Nat → Nat → Nat → Nat → Int

/-- The raw input tables written by the poll and the two previous-pointer
scalars. -/
structure InputState where
  retroKeyState : Nat → Int
  retroJsState : Nat → Int
  analogjoy : Nat → Nat → Int
  mouse_x : Nat → Int
  mouse_y : Nat → Int
  prev_pointer_x : Int
  prev_pointer_y : Int

/-- The store `retroKeyState[k] = v`. -/
def setKey (s : InputState) (k : Nat) (v : Int) : InputState :=
  { s with retroKeyState := Function.update s.retroKeyState k v }

/-- The store `retroJsState[k] = v`. -/
def setJs (s : InputState) (k : Nat) (v : Int) : InputState :=
  { s with retroJsState := Function.update s.retroJsState k v }

/-- The store `analogjoy[i][j] = v`. -/
def setAnalog (s : InputState) (i j : Nat) (v : Int) : InputState :=
  { s with analogjoy := Function.update s.analogjoy i (Function.update (s.analogjoy i) j v) }

/-- The store `mouse_x[i] = v`. -/
def setMouseX (s : InputState) (i : Nat) (v : Int) : InputState :=
  { s with mouse_x := Function.update s.mouse_x i v }

/-- The store `mouse_y[i] = v`. -/
def setMouseY (s : InputState) (i : Nat) (v : Int) : InputState :=
  { s with mouse_y := Function.update s.mouse_y i v }

/-- The `/* Analog joystick */` stores of the player loop (lines 429-433). -/
def poll_analog (input_cb : InputCb) (i : Nat) (s : InputState) : InputState :=
  let s := setAnalog s i 0
    (input_cb i RETRO_DEVICE_ANALOG RETRO_DEVICE_INDEX_ANALOG_LEFT RETRO_DEVICE_ID_ANALOG_X)
  let s := setAnalog s i 1
    (input_cb i RETRO_DEVICE_ANALOG RETRO_DEVICE_INDEX_ANALOG_LEFT RETRO_DEVICE_ID_ANALOG_Y)
  let s := setAnalog s i 2
    (input_cb i RETRO_DEVICE_ANALOG RETRO_DEVICE_INDEX_ANALOG_RIGHT RETRO_DEVICE_ID_ANALOG_X)
  setAnalog s i 3
    (input_cb i RETRO_DEVICE_ANALOG RETRO_DEVICE_INDEX_ANALOG_RIGHT RETRO_DEVICE_ID_ANALOG_Y)

/-- The `/* Joystick */` stores of the player loop (lines 435-468), in source
order. -/
def poll_joypad (rstick_to_btns : Nat) (input_cb : InputCb) (i : Nat) (s : InputState) :
    InputState :=
  let offset := i * 18
  let s :=
    if rstick_to_btns ≠ 0 then
      let s := setJs s (RETRO_DEVICE_ID_JOYPAD_B + offset)
        (if s.analogjoy i 3 > 0x4000 then 1
          else input_cb i RETRO_DEVICE_JOYPAD 0 RETRO_DEVICE_ID_JOYPAD_B)
      setJs s (RETRO_DEVICE_ID_JOYPAD_Y + offset)
        (if s.analogjoy i 2 < -0x4000 then 1
          else input_cb i RETRO_DEVICE_JOYPAD 0 RETRO_DEVICE_ID_JOYPAD_Y)
    else
      let s := setJs s (RETRO_DEVICE_ID_JOYPAD_B + offset)
        (input_cb i RETRO_DEVICE_JOYPAD 0 RETRO_DEVICE_ID_JOYPAD_B)
      setJs s (RETRO_DEVICE_ID_JOYPAD_Y + offset)
        (input_cb i RETRO_DEVICE_JOYPAD 0 RETRO_DEVICE_ID_JOYPAD_Y)
  let s := setJs s (RETRO_DEVICE_ID_JOYPAD_SELECT + offset)
    (input_cb i RETRO_DEVICE_JOYPAD 0 RETRO_DEVICE_ID_JOYPAD_SELECT)
  let s := setJs s (RETRO_DEVICE_ID_JOYPAD_START + offset)
    (input_cb i RETRO_DEVICE_JOYPAD 0 RETRO_DEVICE_ID_JOYPAD_START)
  let s := setJs s (RETRO_DEVICE_ID_JOYPAD_UP + offset)
    (input_cb i RETRO_DEVICE_JOYPAD 0 RETRO_DEVICE_ID_JOYPAD_UP)
  let s := setJs s (RETRO_DEVICE_ID_JOYPAD_DOWN + offset)
    (input_cb i RETRO_DEVICE_JOYPAD 0 RETRO_DEVICE_ID_JOYPAD_DOWN)
  let s := setJs s (RETRO_DEVICE_ID_JOYPAD_LEFT + offset)
    (input_cb i RETRO_DEVICE_JOYPAD 0 RETRO_DEVICE_ID_JOYPAD_LEFT)
  let s := setJs s (RETRO_DEVICE_ID_JOYPAD_RIGHT + offset)
    (input_cb i RETRO_DEVICE_JOYPAD 0 RETRO_DEVICE_ID_JOYPAD_RIGHT)
  let s :=
    if rstick_to_btns ≠ 0 then
      let s := setJs s (RETRO_DEVICE_ID_JOYPAD_A + offset)
        (if s.analogjoy i 2 > 0x4000 then 1
          else input_cb i RETRO_DEVICE_JOYPAD 0 RETRO_DEVICE_ID_JOYPAD_A)
      setJs s (RETRO_DEVICE_ID_JOYPAD_X + offset)
        (if s.analogjoy i 3 < -0x4000 then 1
          else input_cb i RETRO_DEVICE_JOYPAD 0 RETRO_DEVICE_ID_JOYPAD_X)
    else
      let s := setJs s (RETRO_DEVICE_ID_JOYPAD_A + offset)
        (input_cb i RETRO_DEVICE_JOYPAD 0 RETRO_DEVICE_ID_JOYPAD_A)
      setJs s (RETRO_DEVICE_ID_JOYPAD_X + offset)
        (input_cb i RETRO_DEVICE_JOYPAD 0 RETRO_DEVICE_ID_JOYPAD_X)
  let s := setJs s (RETRO_DEVICE_ID_JOYPAD_L + offset)
    (input_cb i RETRO_DEVICE_JOYPAD 0 RETRO_DEVICE_ID_JOYPAD_L)
  let s := setJs s (RETRO_DEVICE_ID_JOYPAD_R + offset)
    (input_cb i RETRO_DEVICE_JOYPAD 0 RETRO_DEVICE_ID_JOYPAD_R)
  let s := setJs s (RETRO_DEVICE_ID_JOYPAD_L2 + offset)
    (input_cb i RETRO_DEVICE_JOYPAD 0 RETRO_DEVICE_ID_JOYPAD_L2)
  let s := setJs s (RETRO_DEVICE_ID_JOYPAD_R2 + offset)
    (input_cb i RETRO_DEVICE_JOYPAD 0 RETRO_DEVICE_ID_JOYPAD_R2)
  let s := setJs s (RETRO_DEVICE_ID_JOYPAD_L3 + offset)
    (input_cb i RETRO_DEVICE_JOYPAD 0 RETRO_DEVICE_ID_JOYPAD_L3)
  setJs s (RETRO_DEVICE_ID_JOYPAD_R3 + offset)
    (input_cb i RETRO_DEVICE_JOYPAD 0 RETRO_DEVICE_ID_JOYPAD_R3)

/-- The mouse / pointer part of the player loop (lines 470-492).  `pointer_pressed`
is a C `bool`: the reading converted to 0 or 1.  The pointer axes of every player
go through the two globals `prev_pointer_x` and `prev_pointer_y`. -/
def poll_mouse (mouse_device : Nat) (input_cb : InputCb) (i : Nat) (s : InputState) :
    InputState :=
  let offset := i * 18
  if mouse_device ≠ 0 then
    if mouse_device = RETRO_DEVICE_MOUSE then
      let s := setJs s (16 + offset) (input_cb i RETRO_DEVICE_MOUSE 0 RETRO_DEVICE_ID_MOUSE_LEFT)
      let s := setJs s (17 + offset) (input_cb i RETRO_DEVICE_MOUSE 0 RETRO_DEVICE_ID_MOUSE_RIGHT)
      let s := setMouseX s i (input_cb i RETRO_DEVICE_MOUSE 0 RETRO_DEVICE_ID_MOUSE_X)
      setMouseY s i (input_cb i RETRO_DEVICE_MOUSE 0 RETRO_DEVICE_ID_MOUSE_Y)
    else
      let pointer_pressed : Bool :=
        input_cb i RETRO_DEVICE_POINTER 0 RETRO_DEVICE_ID_POINTER_PRESSED != 0
      let s := setJs s (16 + offset) (if pointer_pressed then 1 else 0)
      let s := setJs s (17 + offset) 0
      let s :=
        if pointer_pressed then
          let r := get_pointer_delta
            (input_cb i RETRO_DEVICE_POINTER 0 RETRO_DEVICE_ID_POINTER_X) s.prev_pointer_x
          setMouseX { s with prev_pointer_x := r.2 } i r.1
        else setMouseX s i 0
      if pointer_pressed then
        let r := get_pointer_delta
          (input_cb i RETRO_DEVICE_POINTER 0 RETRO_DEVICE_ID_POINTER_Y) s.prev_pointer_y
        setMouseY { s with prev_pointer_y := r.2 } i r.1
      else setMouseY s i 0
  else
    let s := setJs s (16 + offset) 0
    setJs s (17 + offset) 0

/-- One iteration of `for (i = 0; i < 4; i ++)` in `retro_run` (lines 425-493). -/
def poll_player (rstick_to_btns mouse_device : Nat) (input_cb : InputCb) (i : Nat)
    (s : InputState) : InputState :=
  poll_mouse mouse_device input_cb i
    (poll_joypad rstick_to_btns input_cb i (poll_analog input_cb i s))

/-- The input poll of `retro_run` (lines 417-493): the keyboard loop over the codes
of `retroKeys`, then the player loop.  `rstick_to_btns` and `mouse_device` are the
option values in force for the poll (after `update_variables`, when the frontend
signalled a change); `mame_frame` belongs to the machine core and is not part of
the poll. -/
def retro_run (rstick_to_btns mouse_device : Nat) (retroKeys : List Nat) (input_cb : InputCb)
    (s : InputState) : InputState :=
  let s := retroKeys.foldl
    (fun st code => setKey st code (input_cb 0 RETRO_DEVICE_KEYBOARD 0 code)) s
  (List.range 4).foldl (fun st i => poll_player rstick_to_btns mouse_device input_cb i st) s

/-- Input tables holding zero everywhere. -/
def input_example : InputState :=
  { retroKeyState := fun _ => 0, retroJsState := fun _ => 0, analogjoy := fun _ _ => 0,
    mouse_x := fun _ => 0, mouse_y := fun _ => 0, prev_pointer_x := 0, prev_pointer_y := 0 }

/-- A frontend whose right stick Y is fully deflected for every player and whose
other readings are 0. -/
def cb_stick_down : InputCb := fun _ device index id =>
  if device = RETRO_DEVICE_ANALOG ∧ index = RETRO_DEVICE_INDEX_ANALOG_RIGHT
      ∧ id = RETRO_DEVICE_ID_ANALOG_Y then 0x7fff else 0

/-- A frontend that reports only pointers: player `port` has the pressed flag
`pressed port` and the coordinates `x port`, `y port`; every other reading is 0. -/
def pointer_frontend (pressed x y : Nat → Int) : InputCb := fun port device _ id =>
  if device = RETRO_DEVICE_POINTER then
    if id = RETRO_DEVICE_ID_POINTER_PRESSED then pressed port
    else if id = RETRO_DEVICE_ID_POINTER_X then x port
    else if id = RETRO_DEVICE_ID_POINTER_Y then y port
    else 0
  else 0

/-- Two pressed pointers, first frame: player 0 at (100, 50), player 1 at (200, 60). -/
def cb_two_pointers_1 : InputCb :=
  pointer_frontend (fun p => [1, 1].getD p 0) (fun p => [100, 200].getD p 0)
    (fun p => [50, 60].getD p 0)

/-- Two pressed pointers, next frame: both moved by (10, 5). -/
def cb_two_pointers_2 : InputCb :=
  pointer_frontend (fun p => [1, 1].getD p 0) (fun p => [110, 210].getD p 0)
    (fun p => [55, 65].getD p 0)

/-- One pressed pointer (player 0) at the right edge, (32767, 1). -/
def cb_pointer_right_edge : InputCb :=
  pointer_frontend (fun p => [1].getD p 0) (fun p => [32767].getD p 0) (fun p => [1].getD p 0)

/-- One pressed pointer (player 0) at the left edge, (-32767, 1). -/
def cb_pointer_left_edge : InputCb :=
  pointer_frontend (fun p => [1].getD p 0) (fun p => [-32767].getD p 0) (fun p => [1].getD p 0)

/-- One pressed pointer (player 2) at (100, 50). -/
def cb_one_pointer_1 : InputCb :=
  pointer_frontend (fun p => [0, 0, 1].getD p 0) (fun p => [0, 0, 100].getD p 0)
    (fun p => [0, 0, 50].getD p 0)

/-- One pressed pointer (player 2) at (150, 40). -/
def cb_one_pointer_2 : InputCb :=
  pointer_frontend (fun p => [0, 0, 1].getD p 0) (fun p => [0, 0, 150].getD p 0)
    (fun p => [0, 0, 40].getD p 0)

/-- A frontend whose mouse of every player moves by (5, -3) with no button held;
every other reading is 0. -/
def cb_mouse_moving : InputCb := fun _ device _ id =>
  if device = RETRO_DEVICE_MOUSE then
    if id = RETRO_DEVICE_ID_MOUSE_X then 5
    else if id = RETRO_DEVICE_ID_MOUSE_Y then -3
    else 0
  else 0

/-! ### Path resolution (osd.c, lines 22-30 and 40-204) -/

/-- A C string: its characters up to the terminating NUL. -/
abbrev CString := List Char

/-- What `snprintf(buf, size, ...)` leaves in `buf` for the formatted text
`formatted`: at most `size - 1` characters. -/
def snprintf (size : Nat) (formatted : CString) : CString := formatted.take (size - 1)

/-- The global `parentDir` of osd.c. -/
def parentDir : CString := "mame2003".toList

/-- The global `slash` of osd.c (the non-Windows build). -/
def slash : Char := '/'

/-- The table `paths` of osd.c (line 95). -/
def paths : List CString :=
  ["raw", "rom", "image", "diff", "samples", "samples", "artwork", "nvram", "hi", "hsdb", "cfg",
   "inp", "memcard", "snap", "history", "cheat", "lang", "ctrlr", "ini"].map String.toList

/-- The read `paths[pathtype]`; the table has 19 entries, and a read past its end
(undefined in C) yields the empty string here. -/
def paths_get (pathtype : Nat) : CString := paths.getD pathtype []

/-- Modelled from the spec: the `FILETYPE_*` enumeration of `fileio.h` is not among
the sources; each value is the one `osd_fopen` documents for the category in its
`case` labels (`case 1: /* ROM */` and so on) and is the index of the category's
folder in `paths`. -/
def FILETYPE_ROM : Nat := 1
/-- Modelled from the spec: `fileio.h` category, numbered as in `osd_fopen`. -/
def FILETYPE_IMAGE : Nat := 2
/-- Modelled from the spec: `fileio.h` category, numbered as in `osd_fopen`. -/
def FILETYPE_IMAGE_DIFF : Nat := 3
/-- Modelled from the spec: `fileio.h` category, numbered as in `osd_fopen`. -/
def FILETYPE_NVRAM : Nat := 7
/-- Modelled from the spec: `fileio.h` category, numbered as in `osd_fopen`. -/
def FILETYPE_HIGHSCORE : Nat := 8
/-- Modelled from the spec: `fileio.h` category, numbered as in `osd_fopen`. -/
def FILETYPE_HIGHSCORE_DB : Nat := 9
/-- Modelled from the spec: `fileio.h` category, numbered as in `osd_fopen`. -/
def FILETYPE_CONFIG : Nat := 10
/-- Modelled from the spec: `fileio.h` category, numbered as in `osd_fopen`. -/
def FILETYPE_INPUTLOG : Nat := 11
/-- Modelled from the spec: `fileio.h` category, numbered as in `osd_fopen`. -/
def FILETYPE_MEMCARD : Nat := 12
/-- Modelled from the spec: `fileio.h` category, numbered as in `osd_fopen`. -/
def FILETYPE_SCREENSHOT : Nat := 13
/-- Modelled from the spec: `fileio.h` category, numbered as in `osd_fopen`. -/
def FILETYPE_HISTORY : Nat := 14
/-- Modelled from the spec: `fileio.h` category, numbered as in `osd_fopen`. -/
def FILETYPE_CHEAT : Nat := 15

/-- The three storage roots `systemDir`, `saveDir`, `romDir`. -/
structure Dirs where
  systemDir : CString
  saveDir : CString
  romDir : CString

/-- The values of `errno` that `osd_create_directory` tells apart. -/
inductive Errno where
  | ENOENT
  | EEXIST
  | other (code : Nat)
  deriving DecidableEq, Repr

/-- A call of the C library made by the path code. -/
inductive FsCall where
  | stat (path : CString)
  | mkdir (path : CString)
  | fopen (path : CString) (mode : CString)
  deriving DecidableEq, Repr

/-- The outcomes of the C library calls: the return value of `stat` and of `mkdir`
for a path, the `errno` each leaves when it fails, whether `stat` reports a
directory, and whether `fopen` returns a non-null stream. -/
structure FsOracle where
  stat_ret : CString → Int
  stat_errno : CString → Errno
  stat_isdir : CString → Bool
  mkdir_ret : CString → Int
  mkdir_errno : CString → Errno
  fopen_ok : CString → CString → Bool

/-- The three results of `osd_get_path_info`. -/
inductive PathInfo where
  | PATH_NOT_FOUND
  | PATH_IS_FILE
  | PATH_IS_DIRECTORY
  deriving DecidableEq, Repr

/-- An open `osd_file`: the stream `fopen` returned for `path` in `mode`. -/
structure osd_file where
  path : CString
  mode : CString
  deriving DecidableEq, Repr

/-- Embedding of `int osd_create_directory(const char *dir)`: the returned value
and the library calls made, appended to `calls`.  `errno` after `mkdir` is the one
`mkdir` sets when it fails and the one left by the failed `stat` otherwise. -/
def osd_create_directory (fs : FsOracle) (dir : CString) (calls : List FsCall) :
    Int × List FsCall :=
  let calls := calls ++ [FsCall.stat dir]
  if fs.stat_ret dir = -1 then
    if fs.stat_errno dir = Errno.ENOENT then
      let calls := calls ++ [FsCall.mkdir dir]
      let mkdirok := fs.mkdir_ret dir
      let errno := if mkdirok = 0 then fs.stat_errno dir else fs.mkdir_errno dir
      if mkdirok ≠ 0 ∧ errno ≠ Errno.EEXIST then (0, calls) else (1, calls)
    else (1, calls)
  else (1, calls)

/-- Embedding of `int osd_get_path_info(int pathtype, int pathindex, const char
*filename)`: the result and the library calls made.  The path built in `buffer` is
the argument of the `stat` call. -/
def osd_get_path_info (fs : FsOracle) (d : Dirs) (pathtype : Nat) (_pathindex : Nat)
    (filename : CString) (calls : List FsCall) : PathInfo × List FsCall :=
  let currDir : CString :=
    if pathtype = FILETYPE_ROM ∨ pathtype = FILETYPE_IMAGE then
      d.romDir
    else if pathtype = FILETYPE_IMAGE_DIFF ∨ pathtype = FILETYPE_NVRAM
        ∨ pathtype = FILETYPE_HIGHSCORE ∨ pathtype = FILETYPE_CONFIG
        ∨ pathtype = FILETYPE_INPUTLOG ∨ pathtype = FILETYPE_MEMCARD
        ∨ pathtype = FILETYPE_SCREENSHOT then
      snprintf 1024 (d.saveDir ++ [slash] ++ parentDir ++ [slash] ++ paths_get pathtype)
    else if pathtype = FILETYPE_HIGHSCORE_DB ∨ pathtype = FILETYPE_HISTORY
        ∨ pathtype = FILETYPE_CHEAT then
      snprintf 1024 (d.systemDir ++ [slash] ++ parentDir)
    else
      snprintf 1024 (d.systemDir ++ [slash] ++ parentDir ++ [slash] ++ paths_get pathtype)
  let buffer := snprintf 1024 (currDir ++ [slash] ++ filename)
  let calls := calls ++ [FsCall.stat buffer]
  if fs.stat_ret buffer = 0 then
    (if fs.stat_isdir buffer then PathInfo.PATH_IS_DIRECTORY else PathInfo.PATH_IS_FILE, calls)
  else (PathInfo.PATH_NOT_FOUND, calls)

/-- The `switch (pathtype)` of `osd_fopen` (lines 159-185): the contents of
`currDir`. -/
def osd_fopen_currDir (d : Dirs) (pathtype : Nat) : CString :=
  if pathtype = 1 ∨ pathtype = 2 then
    d.romDir
  else if pathtype = 3 ∨ pathtype = 7 ∨ pathtype = 8 ∨ pathtype = 10 ∨ pathtype = 11
      ∨ pathtype = 12 ∨ pathtype = 13 then
    snprintf 1024 (d.saveDir ++ [slash] ++ parentDir ++ [slash] ++ paths_get pathtype)
  else if pathtype = 9 ∨ pathtype = 14 ∨ pathtype = 15 then
    snprintf 1024 (d.systemDir ++ [slash] ++ parentDir)
  else
    snprintf 1024 (d.systemDir ++ [slash] ++ parentDir ++ [slash] ++ paths_get pathtype)

/-- The contents of `buffer` in `osd_fopen` (line 187). -/
def osd_fopen_buffer (d : Dirs) (pathtype : Nat) (filename : CString) : CString :=
  snprintf 1024 (osd_fopen_currDir d pathtype ++ [slash] ++ filename)

/-- Embedding of `osd_file *osd_fopen(int pathtype, int pathindex, const char
*filename, const char *mode)`: the handle (`none` for the null pointer) and the
library calls made.  The value returned by `osd_create_directory` is not used by
the source. -/
def osd_fopen (fs : FsOracle) (d : Dirs) (pathtype : Nat) (_pathindex : Nat)
    (filename : CString) (mode : CString) (calls : List FsCall) :
    Option osd_file × List FsCall :=
  let currDir := osd_fopen_currDir d pathtype
  let buffer := osd_fopen_buffer d pathtype filename
  let calls := (osd_create_directory fs currDir calls).2
  let calls := calls ++ [FsCall.fopen buffer mode]
  if fs.fopen_ok buffer mode then
    (some { path := buffer, mode := mode }, calls)
  else (none, calls)

/-- The path the specification assigns to a category, the category being named by
its folder in the `paths` table: the rom root for `rom` and `image`; the save
root, the product folder and the category folder for the user-generated
categories; the system root and the product folder alone for the three database
categories; the system root, the product folder and the category folder for every
other category. -/
def spec_resolved_path (d : Dirs) (pathtype : Nat) (filename : CString) : CString :=
  let sub := paths_get pathtype
  if sub ∈ ["rom", "image"].map String.toList then
    d.romDir ++ [slash] ++ filename
  else if sub ∈ ["diff", "nvram", "hi", "cfg", "inp", "memcard", "snap"].map String.toList then
    d.saveDir ++ [slash] ++ "mame2003".toList ++ [slash] ++ sub ++ [slash] ++ filename
  else if sub ∈ ["hsdb", "history", "cheat"].map String.toList then
    d.systemDir ++ [slash] ++ "mame2003".toList ++ [slash] ++ filename
  else
    d.systemDir ++ [slash] ++ "mame2003".toList ++ [slash] ++ sub ++ [slash] ++ filename

/-- Three short roots. -/
def dirs_example : Dirs :=
  { systemDir := "/sys".toList, saveDir := "/save".toList, romDir := "/roms".toList }

/-- A file system in which nothing exists and nothing can be created: `stat` fails
with `ENOENT`, `mkdir` fails with `EACCES` (13), `fopen` fails. -/
def fs_all_missing : FsOracle :=
  { stat_ret := fun _ => -1, stat_errno := fun _ => Errno.ENOENT, stat_isdir := fun _ => false,
    mkdir_ret := fun _ => -1, mkdir_errno := fun _ => Errno.other 13,
    fopen_ok := fun _ _ => false }

/-! ### Snapshot sequencers (libretro.c, lines 594-676) -/

/-- The functions of the machine core called by `retro_serialize` and
`retro_unserialize` (`state.c` and `cpuintrf.c` are not among the sources), as
operations on a core state `σ`; `D` is the type of the caller's buffer.  A
`..._continue` and `state_save_load_begin` return the C result (non-zero for
failure) with the new state.  `cpu_gettotalcpu` is fixed for a loaded machine. -/
structure SnapshotCore (σ : Type) (D : Type) where
  state_get_dump_size : σ → Nat
  cpu_gettotalcpu : Nat
  state_save_save_begin : D → σ → σ
  state_save_set_current_tag : Nat → σ → σ
  state_save_save_continue : σ → Int × σ
  state_save_save_finish : σ → σ
  state_save_load_begin : D → Nat → σ → Int × σ
  state_save_load_continue : σ → Int × σ
  state_save_load_finish : σ → σ
  cpuintrf_push_context : Nat → σ → σ
  cpuintrf_pop_context : σ → σ
  activecpu_reset_banking : σ → σ

/-- Embedding of `size_t retro_serialize_size(void)`. -/
def retro_serialize_size {σ D : Type} (C : SnapshotCore σ D) (s : σ) : Nat :=
  C.state_get_dump_size s

/-- The `/* loop over CPUs */` of `retro_serialize` (lines 616-630) over the
processor numbers still to visit; `false` is the `return false` inside the loop. -/
def retro_serialize_cpus {σ D : Type} (C : SnapshotCore σ D) : List Nat → σ → Bool × σ
  | [], s => (true, s)
  | cpunum :: rest, s =>
    let s := C.cpuintrf_push_context cpunum s
    let s := C.activecpu_reset_banking s
    let s := C.state_save_set_current_tag (cpunum + 1) s
    let r := C.state_save_save_continue s
    if r.1 ≠ 0 then (false, r.2)
    else retro_serialize_cpus C rest (C.cpuintrf_pop_context r.2)

/-- Embedding of `bool retro_serialize(void *data, size_t size)`; `data` is `none`
for a null pointer. -/
def retro_serialize {σ D : Type} (C : SnapshotCore σ D) (data : Option D) (size : Nat)
    (s : σ) : Bool × σ :=
  if retro_serialize_size C s ≠ 0 then
    match data with
    | none => (false, s)
    | some buf =>
      if size ≠ 0 then
        let s := C.state_save_save_begin buf s
        let s := C.state_save_set_current_tag 0 s
        let r := C.state_save_save_continue s
        if r.1 ≠ 0 then (false, r.2)
        else
          let l := retro_serialize_cpus C (List.range C.cpu_gettotalcpu) r.2
          if l.1 = false then (false, l.2)
          else (true, C.state_save_save_finish l.2)
      else (false, s)
  else (false, s)

/-- The `/* loop over CPUs */` of `retro_unserialize` (lines 652-666). -/
def retro_unserialize_cpus {σ D : Type} (C : SnapshotCore σ D) : List Nat → σ → Bool × σ
  | [], s => (true, s)
  | cpunum :: rest, s =>
    let s := C.cpuintrf_push_context cpunum s
    let s := C.activecpu_reset_banking s
    let s := C.state_save_set_current_tag (cpunum + 1) s
    let r := C.state_save_load_continue s
    if r.1 ≠ 0 then (false, r.2)
    else retro_unserialize_cpus C rest (C.cpuintrf_pop_context r.2)

/-- Embedding of `bool retro_unserialize(const void *data, size_t size)`. -/
def retro_unserialize {σ D : Type} (C : SnapshotCore σ D) (data : Option D) (size : Nat)
    (s : σ) : Bool × σ :=
  if retro_serialize_size C s ≠ 0 then
    match data with
    | none => (false, s)
    | some buf =>
      if size ≠ 0 then
        let b := C.state_save_load_begin buf size s
        if b.1 = 0 then
          let s := C.state_save_set_current_tag 0 b.2
          let r := C.state_save_load_continue s
          if r.1 ≠ 0 then (false, r.2)
          else
            let l := retro_unserialize_cpus C (List.range C.cpu_gettotalcpu) r.2
            if l.1 = false then (false, l.2)
            else (true, C.state_save_load_finish l.2)
        else (false, b.2)
      else (false, s)
  else (false, s)

/-- A call of the machine core made by a sequencer. -/
inductive SnapEvent where
  | save_begin
  | set_current_tag (tag : Nat)
  | save_continue (tag : Nat)
  | save_finish
  | load_begin
  | load_continue (tag : Nat)
  | load_finish
  | push_context (cpunum : Nat)
  | reset_banking
  | pop_context
  deriving DecidableEq, Repr

/-- The current tag and the calls made so far, oldest first. -/
structure TraceState where
  tag : Nat
  events : List SnapEvent
  deriving DecidableEq, Repr

/-- The recording core: every operation appends its call to `events`.  The machine
has `total` processors and reports the dump size `dump_size`; the segment write
(read) under tag `t` succeeds exactly when `save_ok t` (`load_ok t`) holds, and
`state_save_load_begin` succeeds exactly when `begin_ok` holds. -/
def traceCore (dump_size total : Nat) (save_ok load_ok : Nat → Bool) (begin_ok : Bool) :
    SnapshotCore TraceState Unit where
  state_get_dump_size := fun _ => dump_size
  cpu_gettotalcpu := total
  state_save_save_begin := fun _ s => { s with events := s.events ++ [SnapEvent.save_begin] }
  state_save_set_current_tag := fun t s =>
    { tag := t, events := s.events ++ [SnapEvent.set_current_tag t] }
  state_save_save_continue := fun s =>
    (if save_ok s.tag then 0 else 1,
      { s with events := s.events ++ [SnapEvent.save_continue s.tag] })
  state_save_save_finish := fun s => { s with events := s.events ++ [SnapEvent.save_finish] }
  state_save_load_begin := fun _ _ s =>
    (if begin_ok then 0 else 1, { s with events := s.events ++ [SnapEvent.load_begin] })
  state_save_load_continue := fun s =>
    (if load_ok s.tag then 0 else 1,
      { s with events := s.events ++ [SnapEvent.load_continue s.tag] })
  state_save_load_finish := fun s => { s with events := s.events ++ [SnapEvent.load_finish] }
  cpuintrf_push_context := fun c s => { s with events := s.events ++ [SnapEvent.push_context c] }
  cpuintrf_pop_context := fun s => { s with events := s.events ++ [SnapEvent.pop_context] }
  activecpu_reset_banking := fun s => { s with events := s.events ++ [SnapEvent.reset_banking] }

/-- The tags passed to `state_save_set_current_tag`, in call order. -/
def issued_tags (ev : List SnapEvent) : List Nat :=
  ev.filterMap fun e =>
    match e with
    | SnapEvent.set_current_tag t => some t
    | _ => none

/-- The run of `retro_serialize` on the recording core, started with no call
made. -/
def traced_serialize (dump_size total : Nat) (save_ok : Nat → Bool) (data : Option Unit)
    (size : Nat) : Bool × TraceState :=
  retro_serialize (traceCore dump_size total save_ok (fun _ => true) true) data size
    { tag := 0, events := [] }

/-- The recording state once the global segment has been written. -/
def after_global_write : TraceState :=
  { tag := 0, events := [SnapEvent.save_begin, SnapEvent.set_current_tag 0,
      SnapEvent.save_continue 0] }

/-- A machine being restored: its global state, one state per processor, the
tagged segments of the stream being read, the current tag and the stack of
active-processor contexts. -/
structure RestoreWorld where
  global : Nat
  cpu : List Nat
  stream : List (Nat × Nat)
  tag : Nat
  context : List Nat
  deriving DecidableEq, Repr

/-- The part of the machine a segment carries: the global state for tag 0, the
state of processor `tag - 1` otherwise. -/
def segment_value (w : RestoreWorld) (tag : Nat) : Nat :=
  if tag = 0 then w.global else w.cpu.getD (tag - 1) 0

/-- Writing a segment's payload into the machine. -/
def apply_segment (w : RestoreWorld) (tag : Nat) (v : Nat) : RestoreWorld :=
  if tag = 0 then { w with global := v } else { w with cpu := w.cpu.set (tag - 1) v }

/-- Modelled from the spec: `state_save_load_begin`, `state_save_load_continue` and
the other functions of `state.c` and `cpuintrf.c` are not among the sources.  The
stream is "partitioned into tagged segments: tag 0 followed by one tagged segment
per enumerated virtual processor", and "state is restored incrementally in place":
`state_save_load_continue` looks up the segment of the current tag and, when it is
there, writes it into the machine at once; when it is missing the read fails and
nothing is written.  The save side appends the segment of the current tag to the
stream. -/
def inPlaceCore (total : Nat) : SnapshotCore RestoreWorld (List (Nat × Nat)) where
  state_get_dump_size := fun _ => total + 1
  cpu_gettotalcpu := total
  state_save_save_begin := fun _ w => { w with stream := [] }
  state_save_set_current_tag := fun t w => { w with tag := t }
  state_save_save_continue := fun w =>
    (0, { w with stream := w.stream ++ [(w.tag, segment_value w w.tag)] })
  state_save_save_finish := fun w => w
  state_save_load_begin := fun data _ w => (0, { w with stream := data })
  state_save_load_continue := fun w =>
    match w.stream.lookup w.tag with
    | some v => (0, apply_segment w w.tag v)
    | none => (1, w)
  state_save_load_finish := fun w => w
  cpuintrf_push_context := fun c w => { w with context := c :: w.context }
  cpuintrf_pop_context := fun w => { w with context := w.context.tail }
  activecpu_reset_banking := fun w => w

/-- A one-processor machine whose global and processor state are both 1. -/
def machine_before : RestoreWorld :=
  { global := 1, cpu := [1], stream := [], tag := 0, context := [] }

/-- A stream cut after its global segment (payload 7). -/
def truncated_stream : List (Nat × Nat) := [(0, 7)]

/-! ### Content loading (libretro.c, lines 75-136 and 499-584) -/

/-- The macro `PATH_SEPARATOR` (the non-Windows build). -/
def PATH_SEPARATOR : Char := '/'

/-- The constant `replaced` of `normalizePath`: the backslash (character 92), the
separator that is not the native one. -/
def replaced : Char := Char.ofNat 92

/-- The C function `strchr` on a string: the index of the first occurrence of `c`,
`none` for a null result. -/
def strchr : CString → Char → Option Nat
  | [], _ => none
  | x :: xs, c => if x = c then some 0 else (strchr xs c).map (· + 1)

/-- The C function `strrchr` on a string: the index of the last occurrence of `c`,
`none` for a null result. -/
def strrchr : CString → Char → Option Nat
  | [], _ => none
  | x :: xs, c =>
    match strrchr xs c with
    | some k => some (k + 1)
    | none => if x = c then some 0 else none

/-- The loop of `normalizePath`: as long as `strchr` finds a `replaced` character,
overwrite the first one with `PATH_SEPARATOR`.  `fuel` bounds the number of
iterations. -/
def normalizePath_loop : Nat → CString → CString
  | 0, aPath => aPath
  | fuel + 1, aPath =>
    match strchr aPath replaced with
    | some tok => normalizePath_loop fuel (aPath.set tok PATH_SEPARATOR)
    | none => aPath

/-- Embedding of `static char* normalizePath(char* aPath)`: the contents of the
buffer afterwards.  Every iteration removes one `replaced` character, so the
length of the string is enough fuel (`normalizePath_eq_map`). -/
def normalizePath (aPath : CString) : CString := normalizePath_loop aPath.length aPath

/-- Embedding of `static char* peelPathItem(char* aPath)`: the contents of the
buffer afterwards, cut at the last separator when there is one. -/
def peelPathItem (aPath : CString) : CString :=
  match strrchr aPath PATH_SEPARATOR with
  | some last => aPath.take last
  | none => aPath

/-- What `strncpy(dst, src, n)` leaves in a zero-filled `dst` of more than `n`
bytes: at most `n` characters of `src`. -/
def strncpy (n : Nat) (src : CString) : CString := src.take n

/-- The search loop of `getDriverIndex` over the names of `drivers[i]`, `i` being
the index of the head of the list: the first index whose name equals
`driverName`, or -1. -/
def findDriver (driverName : CString) : List CString → Nat → Int
  | [], _ => -1
  | name :: rest, i => if driverName = name then (i : Int) else findDriver driverName rest (i + 1)

/-- Embedding of `static int getDriverIndex(const char* aPath)`; `drivers` lists
the names of the driver table, `aPath` is `none` for a null pointer.  The store
into `options.romset_filename_noext` and the log line are left out. -/
def getDriverIndex (drivers : List CString) (aPath : Option CString) : Int :=
  let path := normalizePath (aPath.getD ".".toList)
  let last := strrchr path PATH_SEPARATOR
  let driverName := strncpy 127
    (match last with
     | some k => path.drop (k + 1)
     | none => path)
  let firstDot := strchr driverName '.'
  let driverName :=
    match firstDot with
    | some k => driverName.take k
    | none => driverName
  findDriver driverName drivers 0

/-- The field of `struct retro_game_info` that `retro_load_game` reads. -/
structure retro_game_info where
  path : Option CString

/-- The value of one of the pointers `systemDir`, `saveDir`, `romDir`: null, a
string owned by the frontend, or the address of the `fallbackDir` buffer. -/
inductive DirPtr where
  | null
  | frontend (dir : CString)
  | fallback
  deriving DecidableEq, Repr

/-- The globals written by `retro_load_game`: `driverIndex`, the contents of the
`fallbackDir` buffer (`none` while not allocated), the three directory pointers,
and the arguments of the calls of `run_game`, oldest first. -/
structure LoadState where
  driverIndex : Int
  fallbackDir : Option CString
  systemDir : DirPtr
  saveDir : DirPtr
  romDir : DirPtr
  run_game_calls : List Int
  deriving DecidableEq, Repr

/-- The pointer the frontend stores for a directory query: null when it has no
directory. -/
def frontend_dir (reply : Option CString) : DirPtr :=
  match reply with
  | none => DirPtr.null
  | some dir => DirPtr.frontend dir

/-- The string a directory pointer points to. -/
def dir_string (s : LoadState) (p : DirPtr) : Option CString :=
  match p with
  | DirPtr.null => none
  | DirPtr.frontend dir => some dir
  | DirPtr.fallback => s.fallbackDir

/-- The test `dir == NULL || dir[0] == 0` of `retro_load_game`. -/
def dir_unset (s : LoadState) (p : DirPtr) : Bool :=
  match dir_string s p with
  | none => true
  | some dir => dir.isEmpty

/-- The two statements `normalizePath(fallbackDir)` and `peelPathItem(...)`, which
both work in place on the `fallbackDir` buffer. -/
def peel_fallback (s : LoadState) : LoadState :=
  { s with fallbackDir := s.fallbackDir.map fun buf => peelPathItem (normalizePath buf) }

/-- Embedding of `bool retro_load_game(const struct retro_game_info *game)`.
`system_reply` and `save_reply` are what the frontend stores for the two directory
queries, `run_game` is the result of the machine core for a driver index.  The
stores into `options` and the input descriptors are left out. -/
def retro_load_game (drivers : List CString) (run_game : Int → Int)
    (system_reply save_reply : Option CString) (game : Option retro_game_info)
    (s : LoadState) : Bool × LoadState :=
  match game with
  | none => (false, s)
  | some info =>
    let s := { s with driverIndex := getDriverIndex drivers info.path }
    if s.driverIndex ≠ 0 then
      let s := { s with fallbackDir := info.path }
      let s := { s with systemDir := frontend_dir system_reply }
      let s := if dir_unset s s.systemDir then
          { peel_fallback s with systemDir := DirPtr.fallback } else s
      let s := { s with saveDir := frontend_dir save_reply }
      let s := if dir_unset s s.saveDir then
          { peel_fallback s with saveDir := DirPtr.fallback } else s
      let s := { peel_fallback s with romDir := DirPtr.fallback }
      let s := { s with run_game_calls := s.run_game_calls ++ [s.driverIndex] }
      (run_game s.driverIndex == 0, s)
    else (false, s)

/-- The globals before any content is loaded. -/
def load_initial : LoadState :=
  { driverIndex := 0, fallbackDir := none, systemDir := DirPtr.null, saveDir := DirPtr.null,
    romDir := DirPtr.null, run_game_calls := [] }

/-- A driver table with two drivers: `puckman` at index 0, `pacman` at index 1. -/
def drivers_example : List CString := ["puckman", "pacman"].map String.toList

/-- Content `/home/user/roms/pacman.zip`. -/
def game_pacman : retro_game_info := { path := some "/home/user/roms/pacman.zip".toList }

/-- Content `/home/user/roms/puckman.zip`. -/
def game_puckman : retro_game_info := { path := some "/home/user/roms/puckman.zip".toList }

/-- Content `/home/user/roms/galaga.zip`, which no driver of the example table
matches. -/
def game_galaga : retro_game_info := { path := some "/home/user/roms/galaga.zip".toList }

/-! ### Recorded runs of `retro_unserialize` and context counts -/

/-- The run of `retro_unserialize` on the recording core, started with no call
made. -/
def traced_unserialize (dump_size total : Nat) (load_ok : Nat → Bool) (begin_ok : Bool)
    (data : Option Unit) (size : Nat) : Bool × TraceState :=
  retro_unserialize (traceCore dump_size total (fun _ => true) load_ok begin_ok) data size
    { tag := 0, events := [] }

/-- Number of `cpuintrf_push_context` calls among the recorded calls. -/
def push_count (ev : List SnapEvent) : Nat :=
  (ev.filter fun e =>
    match e with
    | SnapEvent.push_context _ => true
    | _ => false).length

/-- Number of `cpuintrf_pop_context` calls among the recorded calls. -/
def pop_count (ev : List SnapEvent) : Nat := ev.count SnapEvent.pop_context

/-! ## Part II. Theorems -/

/-! ### Pointer delta -/

/-- C1: for every pair of 16-bit signed values (and indeed every pair of integers)
`get_pointer_delta` returns 0 when the previous or the current coordinate is 0
and otherwise the difference `coord - prev` as a 16-bit signed value; the returned
value is a 16-bit signed value; in every case the stored previous coordinate is
`coord` afterwards.  In particular (prev 0, coord 100) gives 0, (prev 100,
coord 0) gives 0, and (prev 100, coord 150) gives 50. -/
theorem get_pointer_delta_spec (coord prev : Int) :
    (get_pointer_delta coord prev).1
        = (if prev = 0 ∨ coord = 0 then 0 else toInt16 (coord - prev)) ∧
    isInt16 (get_pointer_delta coord prev).1 ∧
    (get_pointer_delta coord prev).2 = coord ∧
    (get_pointer_delta 100 0).1 = 0 ∧
    (get_pointer_delta 0 100).1 = 0 ∧
    (get_pointer_delta 150 100).1 = 50 := by
  refine ⟨?_, ?_, ?_, by decide, by decide, by decide⟩
  · unfold get_pointer_delta
    by_cases h : prev = 0 ∨ coord = 0
    · simp [h]
    · by_cases h2 : coord = prev
      · simp [h, h2, toInt16]
      · simp [h, h2]
  · unfold get_pointer_delta isInt16
    by_cases h : prev = 0 ∨ coord = 0
    · simp [h]
    · by_cases h2 : coord = prev
      · simp [h, h2]
      · simp only [h, h2, if_false, ne_eq, not_false_eq_true, if_true, toInt16]
        omega
  · unfold get_pointer_delta
    by_cases h : prev = 0 ∨ coord = 0
    · simp [h]
    · by_cases h2 : coord = prev
      · simp [h, h2]
      · simp [h, h2]

/-! ### Audio pacing -/

/-- On a non-negative value the cast is the floor. -/
theorem c_int_cast_of_nonneg (q : ℚ) (h : 0 ≤ q) : c_int_cast q = ⌊q⌋ := by
  simp [c_int_cast, h]

theorem c_int_cast_zero : c_int_cast 0 = 0 := by simp [c_int_cast]

/-- Closed form of a delivery on a running stream with a non-null buffer. -/
theorem update_active (s : AudioState) (hne : s.sample_rate ≠ 0) :
    osd_update_audio_stream true s =
      (if 1 ≤ drift_after_increment s then
        (if c_int_cast (drift_after_increment s) ≤ 16 then
          (s.orig_samples_per_frame + c_int_cast (drift_after_increment s),
            { s with
              audio_batch := s.samples_per_frame :: s.audio_batch
              samples_per_frame := s.orig_samples_per_frame + c_int_cast (drift_after_increment s)
              delta_samples :=
                drift_after_increment s - (c_int_cast (drift_after_increment s) : ℚ) })
        else
          (s.orig_samples_per_frame,
            { s with
              audio_batch := s.samples_per_frame :: s.audio_batch
              samples_per_frame := s.orig_samples_per_frame
              delta_samples :=
                drift_after_increment s - (c_int_cast (drift_after_increment s) : ℚ) }))
      else
        (s.orig_samples_per_frame,
          { s with
            audio_batch := s.samples_per_frame :: s.audio_batch
            samples_per_frame := s.orig_samples_per_frame
            delta_samples := drift_after_increment s })) := by
  unfold osd_update_audio_stream drift_after_increment
  rw [if_pos ⟨hne, rfl⟩]
  by_cases he : s.samples_per_frame = s.orig_samples_per_frame
  · by_cases h1 : 1 ≤ s.delta_samples +
        (((s.sample_rate : ℚ) / s.frames_per_second) - (s.orig_samples_per_frame : ℚ))
    · by_cases h2 : c_int_cast (s.delta_samples +
        (((s.sample_rate : ℚ) / s.frames_per_second) - (s.orig_samples_per_frame : ℚ))) ≤ 16
      · simp [he, h1, h2]
      · simp [he, h1, h2]
    · simp [he, h1]
  · by_cases h1 : 1 ≤ s.delta_samples +
        (((s.sample_rate : ℚ) / s.frames_per_second) - (s.orig_samples_per_frame : ℚ))
    · by_cases h2 : c_int_cast (s.delta_samples +
        (((s.sample_rate : ℚ) / s.frames_per_second) - (s.orig_samples_per_frame : ℚ))) ≤ 16
      · simp [he, h1, h2]
      · simp [he, h1, h2]
    · simp [he, h1]

/-- One delivery keeps the pacing invariant. -/
theorem pacing_step (r : Int) (f : ℚ) (n0 base : Int) (k : Nat) (s : AudioState)
    (hr : r ≠ 0) (hφ0 : 0 ≤ (r : ℚ) / f - n0) (hφ1 : (r : ℚ) / f - n0 < 1)
    (h : PacingInv r f n0 base k s) :
    PacingInv r f n0 base (k + 1) (osd_update_audio_stream true s).2 := by
  obtain ⟨h1, h2, h3, h4, h5, h6, h7, h8⟩ := h
  have hne : s.sample_rate ≠ 0 := by rw [h1]; exact hr
  have hd : drift_after_increment s = s.delta_samples + ((r : ℚ) / f - n0) := by
    simp [drift_after_increment, h1, h2, h3]
  rw [update_active s hne]
  simp only [emitted_total] at h8
  by_cases hc : 1 ≤ drift_after_increment s
  · have hfl : c_int_cast (drift_after_increment s) = 1 := by
      rw [c_int_cast_of_nonneg _ (by linarith), Int.floor_eq_iff]
      constructor
      · push_cast; linarith
      · push_cast; linarith
    rw [if_pos hc, hfl, if_pos (by norm_num)]
    constructor <;> simp only [emitted_total, List.sum_cons, h1, h2, h3] <;>
      first
        | rfl
        | omega
        | (simp only [Int.cast_add, Int.cast_one, Nat.cast_add, Nat.cast_one, hd]; linarith)
  · rw [if_neg hc]
    push_neg at hc
    constructor <;> simp only [emitted_total, List.sum_cons, h1, h2, h3] <;>
      first
        | rfl
        | omega
        | (simp only [Int.cast_add, Int.cast_one, Nat.cast_add, Nat.cast_one, hd]; linarith)

/-- Any number of deliveries keeps the pacing invariant. -/
theorem pacing_run (r : Int) (f : ℚ) (n0 base : Int)
    (hr : r ≠ 0) (hφ0 : 0 ≤ (r : ℚ) / f - n0) (hφ1 : (r : ℚ) / f - n0 < 1)
    (N : Nat) : ∀ (k : Nat) (s : AudioState), PacingInv r f n0 base k s →
      PacingInv r f n0 base (k + N) (run_updates N s) := by
  induction N with
  | zero => intro k s h; simpa [run_updates] using h
  | succ n ih =>
    intro k s h
    have h1 := pacing_step r f n0 base k s hr hφ0 hφ1 h
    have h2 := ih (k + 1) _ h1
    have e : k + (n + 1) = k + 1 + n := by omega
    rw [e]
    simpa [run_updates] using h2

/-- Closed form of `osd_start_audio_stream`. -/
theorem start_eq (stereo : Int) (s : AudioState) :
    osd_start_audio_stream stereo s =
      if effective_rate s = 0 then
        (0, { s with
          sample_rate := effective_rate s
          delta_samples := 0
          usestereo := if stereo ≠ 0 then 1 else 0
          samples_per_frame := c_int_cast ((effective_rate s : ℚ) / s.frames_per_second)
          orig_samples_per_frame := c_int_cast ((effective_rate s : ℚ) / s.frames_per_second) })
      else
        (c_int_cast ((effective_rate s : ℚ) / s.frames_per_second), { s with
          sample_rate := effective_rate s
          delta_samples := 0
          usestereo := if stereo ≠ 0 then 1 else 0
          samples_per_frame := c_int_cast ((effective_rate s : ℚ) / s.frames_per_second)
          orig_samples_per_frame := c_int_cast ((effective_rate s : ℚ) / s.frames_per_second)
          samples_buffer := some (c_int_cast ((effective_rate s : ℚ) / s.frames_per_second) + 16)
          conversion_buffer := if stereo ≠ 0 then s.conversion_buffer
            else some (c_int_cast ((effective_rate s : ℚ) / s.frames_per_second) + 16) }) := by
  unfold osd_start_audio_stream effective_rate
  generalize (if s.frames_per_second * 1000 < (s.samplerate : ℚ) then (22050 : Int)
    else s.samplerate) = eff
  by_cases h0 : eff = 0
  · simp only [h0, if_true]
  · by_cases hs : stereo = 0
    · simp [h0, hs]
    · simp [h0, hs]

/-- The globals and the result of `osd_start_audio_stream`, field by field. -/
theorem start_fields (stereo : Int) (s : AudioState) :
    (osd_start_audio_stream stereo s).2.sample_rate = effective_rate s ∧
    (osd_start_audio_stream stereo s).2.frames_per_second = s.frames_per_second ∧
    (osd_start_audio_stream stereo s).2.delta_samples = 0 ∧
    (osd_start_audio_stream stereo s).2.samples_per_frame =
        c_int_cast ((effective_rate s : ℚ) / s.frames_per_second) ∧
    (osd_start_audio_stream stereo s).2.orig_samples_per_frame =
        c_int_cast ((effective_rate s : ℚ) / s.frames_per_second) ∧
    (osd_start_audio_stream stereo s).1 =
        c_int_cast ((effective_rate s : ℚ) / s.frames_per_second) ∧
    (osd_start_audio_stream stereo s).2.audio_batch = s.audio_batch := by
  rw [start_eq]
  by_cases h0 : effective_rate s = 0
  · simp [h0, c_int_cast_zero]
  · simp [h0]

/-- A freshly started stream satisfies the pacing invariant with no delivery made. -/
theorem start_inv (stereo : Int) (s : AudioState) :
    PacingInv (osd_start_audio_stream stereo s).2.sample_rate s.frames_per_second
      (c_int_cast (((osd_start_audio_stream stereo s).2.sample_rate : ℚ) / s.frames_per_second))
      (emitted_total s) 0 (osd_start_audio_stream stereo s).2 := by
  obtain ⟨h1, h2, h3, h4, h5, -, h7⟩ := start_fields stereo s
  constructor
  · rfl
  · exact h2
  · rw [h5, h1]
  · rw [h3]
  · rw [h3]; norm_num
  · rw [h4, h1]
  · rw [h4, h1]; omega
  · rw [h3, h4, h1]; simp [emitted_total, h7]

/-- The fractional part of a positive ratio lies in `[0, 1)`. -/
theorem ratio_frac_bounds (r : Int) (f : ℚ) (hr : 0 < r) (hf : 0 < f) :
    0 ≤ (r : ℚ) / f - (c_int_cast ((r : ℚ) / f) : ℚ) ∧
    (r : ℚ) / f - (c_int_cast ((r : ℚ) / f) : ℚ) < 1 := by
  have hq : 0 ≤ (r : ℚ) / f := by positivity
  rw [c_int_cast_of_nonneg _ hq]
  constructor
  · linarith [Int.floor_le ((r : ℚ) / f)]
  · linarith [Int.lt_floor_add_one ((r : ℚ) / f)]

/-- The average over any `N ≥ 1` deliveries is within `2 / N` of the true ratio. -/
theorem average_bound (stereo : Int) (s : AudioState) (N : Nat)
    (hfps : 0 < s.frames_per_second)
    (hrate : 0 < (osd_start_audio_stream stereo s).2.sample_rate)
    (hN : 1 ≤ N) :
    |((samples_emitted N (osd_start_audio_stream stereo s).2 : Int) : ℚ) / (N : ℚ)
        - ((osd_start_audio_stream stereo s).2.sample_rate : ℚ) / s.frames_per_second|
      < 2 / (N : ℚ) := by
  set s0 := (osd_start_audio_stream stereo s).2 with hs0
  set r := s0.sample_rate with hr
  set f := s.frames_per_second with hf
  set n0 := c_int_cast ((r : ℚ) / f) with hn0
  obtain ⟨hφ0, hφ1⟩ := ratio_frac_bounds r f hrate hfps
  have hinv0 := start_inv stereo s
  have hrun := pacing_run r f n0 (emitted_total s) (ne_of_gt hrate) hφ0 hφ1 N 0 s0 hinv0
  obtain ⟨-, -, -, g4, g5, g6, g7, g8⟩ := hrun
  have hbase : emitted_total s0 = emitted_total s := by
    simp [emitted_total, hs0, (start_fields stereo s).2.2.2.2.2.2]
  have hNpos : (0 : ℚ) < N := by exact_mod_cast hN
  have g6q : (n0 : ℚ) ≤ (run_updates N s0).samples_per_frame := by exact_mod_cast g6
  have g7q : ((run_updates N s0).samples_per_frame : ℚ) ≤ n0 + 1 := by exact_mod_cast g7
  have key : ((samples_emitted N s0 : Int) : ℚ) - N * ((r : ℚ) / f)
      = - (((run_updates N s0).samples_per_frame : ℚ) - n0 + (run_updates N s0).delta_samples) := by
    simp only [samples_emitted, hbase, Int.cast_sub]
    simp only [Nat.zero_add] at g8
    linarith
  have e : ((samples_emitted N s0 : Int) : ℚ) / (N : ℚ) - (r : ℚ) / f
      = (((samples_emitted N s0 : Int) : ℚ) - N * ((r : ℚ) / f)) / N := by
    rw [sub_div, mul_div_cancel_left₀ _ (ne_of_gt hNpos)]
  rw [e, key, abs_lt, ← neg_div]
  constructor
  · apply div_lt_div_of_pos_right _ hNpos
    linarith
  · apply div_lt_div_of_pos_right _ hNpos
    linarith

/-- The example configuration starts at its configured rate. -/
theorem audio_example_rate : (osd_start_audio_stream 1 audio_example).2.sample_rate = 44100 := by
  rw [(start_fields 1 audio_example).1]
  simp [effective_rate, audio_example]
  norm_num

/-- C2: for every positive sample rate (`Machine->sample_rate`, as set by
`osd_start_audio_stream`) and positive frame rate whose ratio is not an integer,
and every `N ≥ 1000`: after `osd_start_audio_stream`, the total number of samples
emitted by `N` consecutive `osd_update_audio_stream` calls with a non-null buffer,
divided by `N`, differs from `sample_rate / frame_rate` by less than 1 sample
(exact rational arithmetic). -/
theorem long_run_average_within_one_sample (stereo : Int) (s : AudioState) (N : Nat)
    (hfps : 0 < s.frames_per_second)
    (hrate : 0 < (osd_start_audio_stream stereo s).2.sample_rate)
    (_hnonint : ¬ ∃ z : Int,
      ((osd_start_audio_stream stereo s).2.sample_rate : ℚ) / s.frames_per_second = (z : ℚ))
    (hN : 1000 ≤ N) :
    |((samples_emitted N (osd_start_audio_stream stereo s).2 : Int) : ℚ) / (N : ℚ)
        - ((osd_start_audio_stream stereo s).2.sample_rate : ℚ) / s.frames_per_second| < 1 := by
  have h := average_bound stereo s N hfps hrate (by omega)
  have hN' : (1000 : ℚ) ≤ N := by exact_mod_cast hN
  have h2 : 2 / (N : ℚ) < 1 := by
    rw [div_lt_one (by linarith)]
    linarith
  exact lt_trans h h2

/-- Witness of C2: 44100 Hz at 57 frames per second (ratio 773.68...), 1000
deliveries. -/
theorem long_run_average_witness :
    |((samples_emitted 1000 (osd_start_audio_stream 1 audio_example).2 : Int) : ℚ)
          / ((1000 : Nat) : ℚ)
        - ((osd_start_audio_stream 1 audio_example).2.sample_rate : ℚ)
            / audio_example.frames_per_second| < 1 := by
  refine long_run_average_within_one_sample 1 audio_example 1000 ?_ ?_ ?_ (le_refl _)
  · simp [audio_example]
  · rw [audio_example_rate]; norm_num
  · rw [audio_example_rate]
    rintro ⟨z, hz⟩
    have h57 : audio_example.frames_per_second = 57 := rfl
    rw [h57, div_eq_iff (by norm_num)] at hz
    have : (44100 : Int) = z * 57 := by exact_mod_cast hz
    omega

/-- What a delivery leaves alone, and that the returned count is the stored one. -/
theorem update_keeps (s : AudioState) (b : Bool) :
    (osd_update_audio_stream b s).2.sample_rate = s.sample_rate ∧
    (osd_update_audio_stream b s).2.orig_samples_per_frame = s.orig_samples_per_frame ∧
    (osd_update_audio_stream b s).2.samples_buffer = s.samples_buffer ∧
    (osd_update_audio_stream b s).2.samples_per_frame = (osd_update_audio_stream b s).1 := by
  by_cases h : s.sample_rate ≠ 0 ∧ b = true
  · obtain ⟨h1, h2⟩ := h
    subst h2
    rw [update_active s h1]
    split_ifs <;> simp
  · simp [osd_update_audio_stream, h]

/-! ### Audio pacing on the machine arithmetic -/

/-- A value in the range of `int` is left alone by the wrap. -/
theorem toInt32_of_range (x : Int) (h1 : -2147483648 ≤ x) (h2 : x ≤ 2147483647) :
    toInt32 x = x := by
  unfold toInt32
  omega

theorem round_half_even_intCast (n : Int) : round_half_even (n : ℚ) = n := by
  simp [round_half_even]

/-- A number `m * 2^e` with `|m| < 2^24` and `-149 ≤ e ≤ 104` is a single-precision
number: rounding leaves it alone. -/
theorem round32_dyadic (m : Int) (e : Int) (hm : |m| < 16777216) (he1 : -149 ≤ e)
    (he2 : e ≤ 104) :
    round32 ((m : ℚ) * (2 : ℚ) ^ e) = Binary32.finite ((m : ℚ) * (2 : ℚ) ^ e) := by
  obtain ⟨q, hq⟩ : ∃ q : ℚ, q = (m : ℚ) * (2 : ℚ) ^ e := ⟨_, rfl⟩
  rw [← hq]
  by_cases h0 : q = 0
  · rw [h0]; simp [round32]
  have h2pos : (0 : ℚ) < (2 : ℚ) ^ e := by positivity
  have hqabs : |q| = (|m| : ℚ) * (2 : ℚ) ^ e := by
    rw [hq, abs_mul, abs_of_pos h2pos]
  have hqpos : 0 < |q| := abs_pos.mpr h0
  have hmq : (|m| : ℚ) < 16777216 := by exact_mod_cast hm
  have hlt : |q| < (2 : ℚ) ^ ((24 : Int) + e) := by
    rw [hqabs, zpow_add₀ (by norm_num : (2 : ℚ) ≠ 0)]
    have h24 : (2 : ℚ) ^ (24 : Int) = 16777216 := by norm_num
    rw [h24]
    exact mul_lt_mul_of_pos_right hmq h2pos
  have hlog : Int.log 2 |q| < 24 + e := by
    have h1 := Int.zpow_log_le_self (b := 2) (by norm_num) hqpos
    have h2 : ((2 : ℕ) : ℚ) ^ Int.log 2 |q| < ((2 : ℕ) : ℚ) ^ ((24 : Int) + e) := by
      push_cast
      push_cast at h1
      exact lt_of_le_of_lt h1 hlt
    push_cast at h2
    exact (zpow_lt_zpow_iff_right₀ (by norm_num : (1 : ℚ) < 2)).mp h2
  have hE : quantum_exp q ≤ e := by
    unfold quantum_exp
    apply max_le <;> omega
  unfold round32
  rw [if_neg h0]
  generalize quantum_exp q = E at hE ⊢
  obtain ⟨j, hj⟩ : ∃ j : Nat, e = E + j := ⟨(e - E).toNat, by omega⟩
  have hne : (2 : ℚ) ^ E ≠ 0 := by positivity
  have hk2 : (2 : ℚ) ^ e = (2 : ℚ) ^ E * (2 : ℚ) ^ j := by
    rw [hj, zpow_add₀ (by norm_num : (2 : ℚ) ≠ 0), zpow_natCast]
  have hdiv : q / (2 : ℚ) ^ E = ((m * 2 ^ j : Int) : ℚ) := by
    rw [div_eq_iff hne, hq]
    push_cast
    rw [hk2]
    ring
  have hr : (round_half_even (q / (2 : ℚ) ^ E) : ℚ) * (2 : ℚ) ^ E = q := by
    rw [hdiv, round_half_even_intCast, ← hdiv]
    exact div_mul_cancel₀ q hne
  have hbig : ¬ ((2 : ℚ) ^ (128 : Int) ≤ |q|) := by
    push_neg
    refine lt_of_lt_of_le hlt ?_
    apply zpow_le_zpow_right₀ (by norm_num)
    omega
  rw [hr, if_neg hbig]

/-- An integer of magnitude below `2^24` is a single-precision number. -/
theorem round32_int (n : Int) (hn : |n| < 16777216) :
    round32 (n : ℚ) = Binary32.finite (n : ℚ) := by
  have h := round32_dyadic n 0 hn (by omega) (by omega)
  simpa using h

/-- The x86-64 conversion truncates a number strictly between -2^31 and 2^31. -/
theorem f32_to_int_of_range (q : ℚ) (h1 : -2147483648 < q) (h2 : q < 2147483648) :
    f32_to_int (Binary32.finite q) = c_int_cast q := by
  have hr : -2147483648 ≤ c_int_cast q ∧ c_int_cast q ≤ 2147483647 := by
    unfold c_int_cast
    by_cases h0 : 0 ≤ q
    · rw [if_pos h0]
      constructor
      · have : (0 : Int) ≤ ⌊q⌋ := Int.floor_nonneg.mpr h0
        omega
      · have : ⌊q⌋ < 2147483648 := Int.floor_lt.mpr (by exact_mod_cast h2)
        omega
    · rw [if_neg h0]
      push_neg at h0
      constructor
      · have : (-2147483648 : Int) < ⌈q⌉ := Int.lt_ceil.mpr (by exact_mod_cast h1)
        omega
      · have : ⌈q⌉ ≤ 0 := Int.ceil_le.mpr (by exact_mod_cast le_of_lt h0)
        omega
  show (if -2147483648 ≤ c_int_cast q ∧ c_int_cast q ≤ 2147483647 then c_int_cast q
    else -2147483648) = c_int_cast q
  rw [if_pos hr]

/-- Single precision with the x86-64 conversion has the properties `FloatLaws`. -/
theorem x86_float_laws : FloatLaws x86_float where
  zero_val := by
    show f32_val (round32 ((0 : Int) : ℚ)) = some 0
    rw [round32_int 0 (by norm_num)]
    simp [f32_val]
  one_val := by
    show f32_val (round32 ((1 : Int) : ℚ)) = some 1
    rw [round32_int 1 (by norm_num)]
    simp [f32_val]
  ge_val := by
    intro x y p q hx hy
    cases x <;> cases y <;> simp [x86_float, f32_val] at hx hy
    subst hx hy
    simp [x86_float, f32_ge]
  toInt_val := by
    intro x q hx h1 h2
    cases x <;> simp [x86_float, f32_val] at hx
    subst hx
    exact f32_to_int_of_range _ h1 h2

/-- Closed form of a delivery on a running stream with a non-null buffer. -/
theorem update_fp_active {F : Type} (ops : FloatOps F) (s : AudioStateFp F)
    (hne : s.sample_rate ≠ 0) :
    osd_update_audio_stream_fp ops true s =
      (if ops.ge (drift_after_increment_fp ops s) (ops.ofInt 1) = true then
        (if ops.toInt (drift_after_increment_fp ops s) ≤ 16 then
          (toInt32 (s.orig_samples_per_frame + ops.toInt (drift_after_increment_fp ops s)),
            { s with
              audio_batch := s.samples_per_frame :: s.audio_batch
              samples_per_frame :=
                toInt32 (s.orig_samples_per_frame + ops.toInt (drift_after_increment_fp ops s))
              delta_samples := ops.sub (drift_after_increment_fp ops s)
                (ops.ofInt (ops.toInt (drift_after_increment_fp ops s))) })
        else
          (s.orig_samples_per_frame,
            { s with
              audio_batch := s.samples_per_frame :: s.audio_batch
              samples_per_frame := s.orig_samples_per_frame
              delta_samples := ops.sub (drift_after_increment_fp ops s)
                (ops.ofInt (ops.toInt (drift_after_increment_fp ops s))) }))
      else
        (s.orig_samples_per_frame,
          { s with
            audio_batch := s.samples_per_frame :: s.audio_batch
            samples_per_frame := s.orig_samples_per_frame
            delta_samples := drift_after_increment_fp ops s })) := by
  unfold osd_update_audio_stream_fp drift_after_increment_fp
  rw [if_pos ⟨hne, rfl⟩]
  by_cases he : s.samples_per_frame = s.orig_samples_per_frame
  · by_cases h1 : ops.ge (ops.add s.delta_samples
        (ops.sub (ops.div (ops.ofInt s.sample_rate) s.frames_per_second)
          (ops.ofInt s.orig_samples_per_frame))) (ops.ofInt 1) = true
    · by_cases h2 : ops.toInt (ops.add s.delta_samples
        (ops.sub (ops.div (ops.ofInt s.sample_rate) s.frames_per_second)
          (ops.ofInt s.orig_samples_per_frame))) ≤ 16
      · simp [he, h1, h2]
      · simp [he, h1, h2]
    · simp [he, h1]
  · by_cases h1 : ops.ge (ops.add s.delta_samples
        (ops.sub (ops.div (ops.ofInt s.sample_rate) s.frames_per_second)
          (ops.ofInt s.orig_samples_per_frame))) (ops.ofInt 1) = true
    · by_cases h2 : ops.toInt (ops.add s.delta_samples
        (ops.sub (ops.div (ops.ofInt s.sample_rate) s.frames_per_second)
          (ops.ofInt s.orig_samples_per_frame))) ≤ 16
      · simp [he, h1, h2]
      · simp [he, h1, h2]
    · simp [he, h1]

/-- Closed form of `osd_start_audio_stream_fp`. -/
theorem start_fp_eq {F : Type} (ops : FloatOps F) (stereo : Int) (s : AudioStateFp F) :
    osd_start_audio_stream_fp ops stereo s =
      if effective_rate_fp ops s = 0 then
        (0, { s with
          sample_rate := effective_rate_fp ops s
          delta_samples := ops.ofInt 0
          usestereo := if stereo ≠ 0 then 1 else 0
          samples_per_frame :=
            ops.toInt (ops.div (ops.ofInt (effective_rate_fp ops s)) s.frames_per_second)
          orig_samples_per_frame :=
            ops.toInt (ops.div (ops.ofInt (effective_rate_fp ops s)) s.frames_per_second) })
      else
        (ops.toInt (ops.div (ops.ofInt (effective_rate_fp ops s)) s.frames_per_second), { s with
          sample_rate := effective_rate_fp ops s
          delta_samples := ops.ofInt 0
          usestereo := if stereo ≠ 0 then 1 else 0
          samples_per_frame :=
            ops.toInt (ops.div (ops.ofInt (effective_rate_fp ops s)) s.frames_per_second)
          orig_samples_per_frame :=
            ops.toInt (ops.div (ops.ofInt (effective_rate_fp ops s)) s.frames_per_second)
          samples_buffer := some (toInt32
            (ops.toInt (ops.div (ops.ofInt (effective_rate_fp ops s)) s.frames_per_second) + 16))
          conversion_buffer := if stereo ≠ 0 then s.conversion_buffer
            else some (toInt32
              (ops.toInt (ops.div (ops.ofInt (effective_rate_fp ops s)) s.frames_per_second)
                + 16)) }) := by
  unfold osd_start_audio_stream_fp
  generalize effective_rate_fp ops s = eff
  by_cases h0 : eff = 0
  · simp only [h0, if_true]
  · by_cases hs : stereo = 0
    · simp [h0, hs]
    · simp [h0, hs]

theorem x86_ofInt (n : Int) : x86_float.ofInt n = round32 (n : ℚ) := rfl

theorem x86_add (x y : Binary32) : x86_float.add x y = f32_add x y := rfl

theorem x86_sub (x y : Binary32) : x86_float.sub x y = f32_add x (f32_neg y) := rfl

theorem x86_mul (x y : Binary32) : x86_float.mul x y = f32_mul x y := rfl

theorem x86_div (x y : Binary32) : x86_float.div x y = f32_div x y := rfl

theorem x86_lt (x y : Binary32) : x86_float.lt x y = f32_lt x y := rfl

theorem x86_ge (x y : Binary32) : x86_float.ge x y = f32_ge x y := rfl

theorem x86_toInt (x : Binary32) : x86_float.toInt x = f32_to_int x := rfl

theorem x86_val (x : Binary32) : x86_float.val x = f32_val x := rfl

theorem f32_add_finite (a b : ℚ) :
    f32_add (Binary32.finite a) (Binary32.finite b) = round32 (a + b) := rfl

theorem f32_neg_finite (a : ℚ) : f32_neg (Binary32.finite a) = Binary32.finite (-a) := rfl

theorem f32_mul_finite (a b : ℚ) :
    f32_mul (Binary32.finite a) (Binary32.finite b) = round32 (a * b) := rfl

theorem f32_div_finite (a b : ℚ) (hb : b ≠ 0) :
    f32_div (Binary32.finite a) (Binary32.finite b) = round32 (a / b) := by
  show (if b = 0 then (if a = 0 then Binary32.nan else Binary32.infinite (decide (a < 0)))
      else round32 (a / b)) = round32 (a / b)
  rw [if_neg hb]

theorem f32_lt_finite (a b : ℚ) :
    f32_lt (Binary32.finite a) (Binary32.finite b) = decide (a < b) := rfl

theorem f32_ge_finite (a b : ℚ) :
    f32_ge (Binary32.finite a) (Binary32.finite b) = decide (b ≤ a) := rfl

theorem f32_val_finite (a : ℚ) : f32_val (Binary32.finite a) = some a := rfl

/-- Rounding of a numeral that is an integer below `2^24` in magnitude. -/
theorem round32_small (n : Int) (q : ℚ) (hq : q = (n : ℚ)) (hn : |n| < 16777216) :
    round32 q = Binary32.finite q := by
  rw [hq]
  exact round32_int n hn

/-- The accumulator of `audio_fp_running delta` after the increment is `delta`
rounded: 44100 / 60 is exactly the nominal 735, so the increment is zero. -/
theorem drift_fp_running (delta : ℚ) :
    drift_after_increment_fp x86_float (audio_fp_running delta) = round32 delta := by
  have h1 : round32 ((44100 : Int) : ℚ) = Binary32.finite 44100 := by
    rw [round32_int 44100 (by norm_num)]; norm_num
  have h2 : round32 ((735 : Int) : ℚ) = Binary32.finite 735 := by
    rw [round32_int 735 (by norm_num)]; norm_num
  have h3 : round32 ((44100 : ℚ) / 60) = Binary32.finite 735 := by
    have e : (44100 : ℚ) / 60 = ((735 : Int) : ℚ) := by norm_num
    rw [e, h2]
  have h4 : round32 ((735 : ℚ) + -735) = Binary32.finite 0 := by
    have e : (735 : ℚ) + -735 = 0 := by norm_num
    rw [e]; simp [round32]
  have e0 : drift_after_increment_fp x86_float (audio_fp_running delta) =
      f32_add (Binary32.finite delta)
        (f32_add (f32_div (round32 ((44100 : Int) : ℚ)) (Binary32.finite 60))
          (f32_neg (round32 ((735 : Int) : ℚ)))) := by
    rw [drift_after_increment_fp, x86_add, x86_sub, x86_div, x86_ofInt, x86_ofInt]
    rfl
  rw [e0, h1, h2, f32_div_finite _ _ (by norm_num), h3, f32_neg_finite, f32_add_finite, h4,
    f32_add_finite, add_zero]

theorem round32_16 : round32 16 = Binary32.finite 16 :=
  round32_small 16 16 (by norm_num) (by norm_num)

theorem round32_17 : round32 17 = Binary32.finite 17 :=
  round32_small 17 17 (by norm_num) (by norm_num)

theorem c_int_cast_intCast (n : Int) : c_int_cast (n : ℚ) = n := by
  unfold c_int_cast
  split_ifs <;> simp

theorem c_int_cast_16 : c_int_cast 16 = 16 := by
  have h := c_int_cast_intCast 16
  norm_num at h
  exact h

theorem c_int_cast_17 : c_int_cast 17 = 17 := by
  have h := c_int_cast_intCast 17
  norm_num at h
  exact h

/-- C4, counterexample: in the running 44100 Hz / 60 fps stream (nominal count
735) whose accumulator is 16 after the increment, the integer part is `k = 16`,
at the bound, and the correction is not suppressed: the test is
`integer_delta <= 16`, and the next count is 751 = 735 + 16, not the nominal 735. -/
theorem correction_of_16_is_applied :
    (audio_fp_running 16).sample_rate ≠ 0 ∧
    x86_float.val (drift_after_increment_fp x86_float (audio_fp_running 16)) = some 16 ∧
    16 ≤ c_int_cast 16 ∧
    (osd_update_audio_stream_fp x86_float true (audio_fp_running 16)).1 = 751 ∧
    (osd_update_audio_stream_fp x86_float true (audio_fp_running 16)).1
      ≠ (audio_fp_running 16).orig_samples_per_frame := by
  have hne : (audio_fp_running 16).sample_rate ≠ 0 := by decide
  have hd : x86_float.val (drift_after_increment_fp x86_float (audio_fp_running 16)) = some 16 := by
    rw [drift_fp_running, round32_16]; rfl
  have h1 : round32 ((1 : Int) : ℚ) = Binary32.finite 1 := by
    rw [round32_int 1 (by norm_num)]; norm_num
  have hge : x86_float.ge (Binary32.finite 16) (x86_float.ofInt 1) = true := by
    rw [x86_ge, x86_ofInt, h1, f32_ge_finite]
    exact decide_eq_true (by norm_num)
  have hk : x86_float.toInt (Binary32.finite 16) = 16 := by
    rw [x86_toInt, f32_to_int_of_range _ (by norm_num) (by norm_num), c_int_cast_16]
  have hw : toInt32 ((audio_fp_running 16).orig_samples_per_frame + 16) = 751 := by decide
  have h : (osd_update_audio_stream_fp x86_float true (audio_fp_running 16)).1 = 751 := by
    rw [update_fp_active _ _ hne, drift_fp_running, round32_16, if_pos hge, hk,
      if_pos (le_refl _), hw]
  refine ⟨hne, hd, ?_, h, ?_⟩
  · rw [c_int_cast_16]
  · rw [h]; decide

/-- C4, amended: for every state (non-zero rate, non-null buffer) in which, after
the per-call increment, the drift accumulator is a finite value below `2^31` with
integer part `k ≥ 16`, and whose nominal count leaves room for 16 more in an
`int`: when `k > 16` the correction is suppressed (the next count is the nominal
count, with nothing added) and when `k = 16` it is applied (the next count is
nominal + 16); in both cases `k`, converted to `float`, is subtracted from the
accumulator. -/
theorem correction_suppressed_above_16 {F : Type} (ops : FloatOps F) (hl : FloatLaws ops)
    (s : AudioStateFp F) (q : ℚ) (hne : s.sample_rate ≠ 0)
    (hq : ops.val (drift_after_increment_fp ops s) = some q)
    (hk : 16 ≤ c_int_cast q) (hq2 : q < 2147483648)
    (ho1 : -2147483648 ≤ s.orig_samples_per_frame)
    (ho2 : s.orig_samples_per_frame + 16 ≤ 2147483647) :
    (osd_update_audio_stream_fp ops true s).1 =
        (if c_int_cast q = 16 then s.orig_samples_per_frame + 16
          else s.orig_samples_per_frame) ∧
    (osd_update_audio_stream_fp ops true s).2.samples_per_frame
      = (osd_update_audio_stream_fp ops true s).1 ∧
    (osd_update_audio_stream_fp ops true s).2.delta_samples =
        ops.sub (drift_after_increment_fp ops s) (ops.ofInt (c_int_cast q)) := by
  have h1 : 1 ≤ q := by
    by_contra hlt
    push_neg at hlt
    unfold c_int_cast at hk
    by_cases h0 : 0 ≤ q
    · rw [if_pos h0] at hk
      have : ((16 : Int) : ℚ) ≤ q := Int.le_floor.mp hk
      norm_num at this
      linarith
    · rw [if_neg h0] at hk
      push_neg at h0
      have : ⌈q⌉ ≤ 0 := Int.ceil_le.mpr (by exact_mod_cast le_of_lt h0)
      omega
  have hge : ops.ge (drift_after_increment_fp ops s) (ops.ofInt 1) = true :=
    (hl.ge_val _ (ops.ofInt 1) q 1 hq hl.one_val).mpr h1
  have hto : ops.toInt (drift_after_increment_fp ops s) = c_int_cast q :=
    hl.toInt_val _ q hq (by linarith) hq2
  rw [update_fp_active ops s hne, if_pos hge, hto]
  by_cases h2 : c_int_cast q ≤ 16
  · have h3 : c_int_cast q = 16 := le_antisymm h2 hk
    rw [if_pos h2, if_pos h3, h3, toInt32_of_range _ (by omega) (by omega)]
    exact ⟨rfl, rfl, rfl⟩
  · have h3 : c_int_cast q ≠ 16 := by omega
    rw [if_neg h2, if_neg h3]
    exact ⟨rfl, rfl, rfl⟩

/-- Witness of the amended C4 (x86-64 single precision): the running 44100 Hz /
60 fps stream whose accumulator is 17 after the increment; the correction is
suppressed, the next count is the nominal 735, and the accumulator is back at 0. -/
theorem correction_suppressed_above_16_witness :
    (audio_fp_running 17).sample_rate ≠ 0 ∧
    x86_float.val (drift_after_increment_fp x86_float (audio_fp_running 17)) = some 17 ∧
    16 ≤ c_int_cast 17 ∧
    (osd_update_audio_stream_fp x86_float true (audio_fp_running 17)).1 =
        (if c_int_cast 17 = 16 then (audio_fp_running 17).orig_samples_per_frame + 16
          else (audio_fp_running 17).orig_samples_per_frame) ∧
    (osd_update_audio_stream_fp x86_float true (audio_fp_running 17)).1 = 735 :=
  ⟨by decide,
   by rw [drift_fp_running, round32_17]; rfl,
   by rw [c_int_cast_17]; decide,
   (correction_suppressed_above_16 x86_float x86_float_laws (audio_fp_running 17) 17
      (by decide) (by rw [drift_fp_running, round32_17]; rfl)
      (by rw [c_int_cast_17]; decide) (by norm_num) (by decide) (by decide)).1,
   ((correction_suppressed_above_16 x86_float x86_float_laws (audio_fp_running 17) 17
      (by decide) (by rw [drift_fp_running, round32_17]; rfl)
      (by rw [c_int_cast_17]; decide) (by norm_num) (by decide) (by decide)).1).trans
     (by rw [c_int_cast_17]; decide)⟩

/-- C5: `osd_start_audio_stream` sets the effective sample rate to 22050 when
`frame_rate * 1000 < configured_rate` (the comparison the machine evaluates in
`float`) and to the configured rate otherwise, and resets the drift accumulator
to 0.  When the `float` quotient `effective_rate / frame_rate` is a finite value
`q` within the range of `int`, its integer part is stored as both the current and
the nominal per-frame count, and is the value returned for a non-zero effective
rate; when the effective rate is 0 the function returns 0. -/
theorem start_audio_stream_spec {F : Type} (ops : FloatOps F) (hl : FloatLaws ops)
    (stereo : Int) (s : AudioStateFp F) (q : ℚ)
    (hq : ops.val (ops.div (ops.ofInt (effective_rate_fp ops s)) s.frames_per_second) = some q)
    (hq1 : -2147483648 < q) (hq2 : q < 2147483648) :
    (osd_start_audio_stream_fp ops stereo s).2.sample_rate =
        (if ops.lt (ops.mul s.frames_per_second (ops.ofInt 1000)) (ops.ofInt s.samplerate) = true
          then 22050 else s.samplerate) ∧
    ops.val (osd_start_audio_stream_fp ops stereo s).2.delta_samples = some 0 ∧
    (osd_start_audio_stream_fp ops stereo s).2.samples_per_frame = c_int_cast q ∧
    (osd_start_audio_stream_fp ops stereo s).2.orig_samples_per_frame = c_int_cast q ∧
    ((osd_start_audio_stream_fp ops stereo s).2.sample_rate ≠ 0 →
        (osd_start_audio_stream_fp ops stereo s).1 = c_int_cast q) ∧
    ((osd_start_audio_stream_fp ops stereo s).2.sample_rate = 0 →
        (osd_start_audio_stream_fp ops stereo s).1 = 0) := by
  have hto := hl.toInt_val _ q hq hq1 hq2
  have hz := hl.zero_val
  rw [start_fp_eq]
  by_cases h0 : effective_rate_fp ops s = 0
  · rw [if_pos h0]
    refine ⟨rfl, hz, ?_, ?_, ?_, ?_⟩
    · exact hto
    · exact hto
    · intro h; exact absurd h0 h
    · intro _; rfl
  · rw [if_neg h0]
    refine ⟨rfl, hz, hto, hto, ?_, ?_⟩
    · intro _; exact hto
    · intro h; exact absurd h h0

/-- The example configuration falls back to 22050 Hz: 40 * 1000 < 48000. -/
theorem effective_rate_fp_example : effective_rate_fp x86_float audio_fp_example = 22050 := by
  have h1 : round32 ((1000 : Int) : ℚ) = Binary32.finite 1000 := by
    rw [round32_int 1000 (by norm_num)]; norm_num
  have h2 : round32 ((48000 : Int) : ℚ) = Binary32.finite 48000 := by
    rw [round32_int 48000 (by norm_num)]; norm_num
  have h3 : round32 ((40 : ℚ) * 1000) = Binary32.finite 40000 := by
    have e : (40 : ℚ) * 1000 = ((40000 : Int) : ℚ) := by norm_num
    rw [e, round32_int 40000 (by norm_num)]; norm_num
  have hlt : x86_float.lt (x86_float.mul audio_fp_example.frames_per_second (x86_float.ofInt 1000))
      (x86_float.ofInt audio_fp_example.samplerate) = true := by
    have e1 : audio_fp_example.frames_per_second = Binary32.finite 40 := rfl
    have e2 : audio_fp_example.samplerate = 48000 := rfl
    rw [e1, e2, x86_lt, x86_mul, x86_ofInt, x86_ofInt, h1, h2, f32_mul_finite, h3, f32_lt_finite]
    exact decide_eq_true (by norm_num)
  unfold effective_rate_fp
  rw [if_pos hlt]

/-- The quotient 22050 / 40 = 551.25 is a single-precision number. -/
theorem quotient_fp_example :
    x86_float.val (x86_float.div (x86_float.ofInt (effective_rate_fp x86_float audio_fp_example))
      audio_fp_example.frames_per_second) = some (2205 / 4) := by
  have h1 : round32 ((22050 : Int) : ℚ) = Binary32.finite 22050 := by
    rw [round32_int 22050 (by norm_num)]; norm_num
  have h2 : round32 ((22050 : ℚ) / 40) = Binary32.finite (2205 / 4) := by
    have h := round32_dyadic 2205 (-2) (by norm_num) (by norm_num) (by norm_num)
    have e : ((2205 : Int) : ℚ) * (2 : ℚ) ^ (-2 : Int) = (22050 : ℚ) / 40 := by norm_num
    rw [e] at h
    rw [h]; norm_num
  have e1 : audio_fp_example.frames_per_second = Binary32.finite 40 := rfl
  rw [effective_rate_fp_example, e1, x86_div, x86_ofInt, h1, f32_div_finite _ _ (by norm_num), h2,
    x86_val, f32_val_finite]

theorem c_int_cast_example : c_int_cast (2205 / 4) = 551 := by
  rw [c_int_cast_of_nonneg _ (by norm_num), Int.floor_eq_iff]
  constructor <;> norm_num

/-- Witness of C5 (x86-64 single precision): the 48000 Hz configuration on a 40
frames-per-second machine.  40 * 1000 < 48000, so the rate falls back to 22050;
the quotient is 551.25 and the function returns 551. -/
theorem start_audio_stream_spec_witness :
    x86_float.val (x86_float.div (x86_float.ofInt (effective_rate_fp x86_float audio_fp_example))
      audio_fp_example.frames_per_second) = some (2205 / 4) ∧
    (osd_start_audio_stream_fp x86_float 1 audio_fp_example).2.sample_rate = 22050 ∧
    (osd_start_audio_stream_fp x86_float 1 audio_fp_example).2.orig_samples_per_frame = 551 ∧
    (osd_start_audio_stream_fp x86_float 1 audio_fp_example).1 = 551 :=
  ⟨quotient_fp_example,
   (start_audio_stream_spec x86_float x86_float_laws 1 audio_fp_example (2205 / 4)
      quotient_fp_example (by norm_num) (by norm_num)).1.trans effective_rate_fp_example,
   (start_audio_stream_spec x86_float x86_float_laws 1 audio_fp_example (2205 / 4)
      quotient_fp_example (by norm_num) (by norm_num)).2.2.2.1.trans c_int_cast_example,
   ((start_audio_stream_spec x86_float x86_float_laws 1 audio_fp_example (2205 / 4)
      quotient_fp_example (by norm_num) (by norm_num)).2.2.2.2.1
        (by
          rw [(start_audio_stream_spec x86_float x86_float_laws 1 audio_fp_example (2205 / 4)
            quotient_fp_example (by norm_num) (by norm_num)).1.trans effective_rate_fp_example]
          decide)).trans c_int_cast_example⟩

/-! ### Input poll -/

@[simp]
theorem setJs_js (s : InputState) (k : Nat) (v : Int) (j : Nat) :
    (setJs s k v).retroJsState j = if j = k then v else s.retroJsState j := by
  simp [setJs, Function.update_apply]

@[simp]
theorem setJs_analog (s : InputState) (k : Nat) (v : Int) :
    (setJs s k v).analogjoy = s.analogjoy := rfl

@[simp]
theorem setAnalog_js (s : InputState) (i j : Nat) (v : Int) :
    (setAnalog s i j v).retroJsState = s.retroJsState := rfl

@[simp]
theorem setAnalog_analog (s : InputState) (i j : Nat) (v : Int) (a b : Nat) :
    (setAnalog s i j v).analogjoy a b =
      if a = i ∧ b = j then v else s.analogjoy a b := by
  unfold setAnalog
  by_cases ha : a = i
  · subst ha
    by_cases hb : b = j
    · simp [hb]
    · simp [hb, Function.update_apply]
  · simp [ha, Function.update_apply]

@[simp]
theorem setMouseX_js (s : InputState) (i : Nat) (v : Int) :
    (setMouseX s i v).retroJsState = s.retroJsState := rfl

@[simp]
theorem setMouseY_js (s : InputState) (i : Nat) (v : Int) :
    (setMouseY s i v).retroJsState = s.retroJsState := rfl

@[simp]
theorem setKey_js (s : InputState) (i : Nat) (v : Int) :
    (setKey s i v).retroJsState = s.retroJsState := rfl

/-- Reading a line of a conditional state. -/
theorem ite_js (c : Prop) [Decidable c] (a b : InputState) (j : Nat) :
    (if c then a else b).retroJsState j = if c then a.retroJsState j else b.retroJsState j := by
  split_ifs <;> rfl

/-- The analog stores leave the joypad lines alone. -/
theorem poll_analog_js (cb : InputCb) (i : Nat) (s : InputState) :
    (poll_analog cb i s).retroJsState = s.retroJsState := rfl

/-- The right-stick entries after the analog stores are the readings. -/
theorem poll_analog_right (cb : InputCb) (i : Nat) (s : InputState) :
    (poll_analog cb i s).analogjoy i 3
      = cb i RETRO_DEVICE_ANALOG RETRO_DEVICE_INDEX_ANALOG_RIGHT RETRO_DEVICE_ID_ANALOG_Y ∧
    (poll_analog cb i s).analogjoy i 2
      = cb i RETRO_DEVICE_ANALOG RETRO_DEVICE_INDEX_ANALOG_RIGHT RETRO_DEVICE_ID_ANALOG_X := by
  simp [poll_analog]

/-- The mouse part writes lines 16 and 17 of the player only. -/
theorem poll_mouse_js (m : Nat) (cb : InputCb) (i : Nat) (s : InputState) (k : Nat)
    (h : k ≠ 16 + i * 18 ∧ k ≠ 17 + i * 18) :
    (poll_mouse m cb i s).retroJsState k = s.retroJsState k := by
  unfold poll_mouse
  by_cases h0 : m = 0
  · simp [h0, h.1, h.2]
  · by_cases h1 : m = RETRO_DEVICE_MOUSE
    · rw [if_pos h0, if_pos h1]
      simp [h.1, h.2]
    · by_cases hp : cb i RETRO_DEVICE_POINTER 0 RETRO_DEVICE_ID_POINTER_PRESSED = 0
      · simp [h0, h1, hp, h.1, h.2]
      · simp [h0, h1, hp, h.1, h.2]

/-- The joypad part writes the first 16 lines of the player only. -/
theorem poll_joypad_js_frame (r : Nat) (cb : InputCb) (i : Nat) (s : InputState) (k : Nat)
    (h : k < 18 * i ∨ 18 * i + 16 ≤ k) :
    (poll_joypad r cb i s).retroJsState k = s.retroJsState k := by
  have e : ∀ (c : Nat), c < 16 → ¬ (k = c + i * 18) := by intro c hc; omega
  unfold poll_joypad
  simp only [RETRO_DEVICE_ID_JOYPAD_B, RETRO_DEVICE_ID_JOYPAD_Y, RETRO_DEVICE_ID_JOYPAD_SELECT,
    RETRO_DEVICE_ID_JOYPAD_START, RETRO_DEVICE_ID_JOYPAD_UP, RETRO_DEVICE_ID_JOYPAD_DOWN,
    RETRO_DEVICE_ID_JOYPAD_LEFT, RETRO_DEVICE_ID_JOYPAD_RIGHT, RETRO_DEVICE_ID_JOYPAD_A,
    RETRO_DEVICE_ID_JOYPAD_X, RETRO_DEVICE_ID_JOYPAD_L, RETRO_DEVICE_ID_JOYPAD_R,
    RETRO_DEVICE_ID_JOYPAD_L2, RETRO_DEVICE_ID_JOYPAD_R2, RETRO_DEVICE_ID_JOYPAD_L3,
    RETRO_DEVICE_ID_JOYPAD_R3, setJs_js, ite_js, e, if_false, ite_self,
      show (0:Nat) < 16 by omega, show (1:Nat) < 16 by omega, show (2:Nat) < 16 by omega,
      show (3:Nat) < 16 by omega, show (4:Nat) < 16 by omega, show (5:Nat) < 16 by omega,
      show (6:Nat) < 16 by omega, show (7:Nat) < 16 by omega, show (8:Nat) < 16 by omega,
      show (9:Nat) < 16 by omega, show (10:Nat) < 16 by omega, show (11:Nat) < 16 by omega,
      show (12:Nat) < 16 by omega, show (13:Nat) < 16 by omega, show (14:Nat) < 16 by omega,
      show (15:Nat) < 16 by omega, not_false_eq_true]

/-- A player pass writes the 18 lines of that player only. -/
theorem poll_player_js_frame (r m : Nat) (cb : InputCb) (j : Nat) (s : InputState) (k : Nat)
    (h : k < 18 * j ∨ 18 * j + 18 ≤ k) :
    (poll_player r m cb j s).retroJsState k = s.retroJsState k := by
  unfold poll_player
  rw [poll_mouse_js m cb j _ k (by omega), poll_joypad_js_frame r cb j _ k (by omega),
    poll_analog_js]

/-- The four player slots. -/
theorem range4 : List.range 4 = [0, 1, 2, 3] := by decide

/-- A line of player `i` holds, after the whole poll, what the pass of player `i` wrote. -/
theorem retro_run_js_own (r m : Nat) (keys : List Nat) (cb : InputCb) (s : InputState)
    (i : Nat) (hi : i < 4) (k : Nat) (hk : 18 * i ≤ k ∧ k < 18 * i + 18) :
    ∃ s', (retro_run r m keys cb s).retroJsState k = (poll_player r m cb i s').retroJsState k := by
  unfold retro_run
  rw [range4]
  simp only [List.foldl_cons, List.foldl_nil]
  interval_cases i
  · rw [poll_player_js_frame r m cb 3 _ k (by omega), poll_player_js_frame r m cb 2 _ k (by omega),
      poll_player_js_frame r m cb 1 _ k (by omega)]
    exact ⟨_, rfl⟩
  · rw [poll_player_js_frame r m cb 3 _ k (by omega), poll_player_js_frame r m cb 2 _ k (by omega)]
    exact ⟨_, rfl⟩
  · rw [poll_player_js_frame r m cb 3 _ k (by omega)]
    exact ⟨_, rfl⟩
  · exact ⟨_, rfl⟩

/-- With the option enabled and the stick deflected, the B line reads 1. -/
theorem poll_joypad_rstick_B (r : Nat) (cb : InputCb) (i : Nat) (s : InputState)
    (hr : r ≠ 0) (hy : s.analogjoy i 3 > 0x4000) :
    (poll_joypad r cb i s).retroJsState (RETRO_DEVICE_ID_JOYPAD_B + i * 18) = 1 := by
  unfold poll_joypad
  simp only [RETRO_DEVICE_ID_JOYPAD_B, RETRO_DEVICE_ID_JOYPAD_Y, RETRO_DEVICE_ID_JOYPAD_SELECT,
    RETRO_DEVICE_ID_JOYPAD_START, RETRO_DEVICE_ID_JOYPAD_UP, RETRO_DEVICE_ID_JOYPAD_DOWN,
    RETRO_DEVICE_ID_JOYPAD_LEFT, RETRO_DEVICE_ID_JOYPAD_RIGHT, RETRO_DEVICE_ID_JOYPAD_A,
    RETRO_DEVICE_ID_JOYPAD_X, RETRO_DEVICE_ID_JOYPAD_L, RETRO_DEVICE_ID_JOYPAD_R,
    RETRO_DEVICE_ID_JOYPAD_L2, RETRO_DEVICE_ID_JOYPAD_R2, RETRO_DEVICE_ID_JOYPAD_L3,
    RETRO_DEVICE_ID_JOYPAD_R3, setJs_js, ite_js, add_left_inj, if_pos hr]
  simp [hy]

/-- With the option disabled the four face-button lines hold the native readings. -/
theorem poll_joypad_native (cb : InputCb) (i : Nat) (s : InputState) :
    (poll_joypad 0 cb i s).retroJsState (RETRO_DEVICE_ID_JOYPAD_B + i * 18)
        = cb i RETRO_DEVICE_JOYPAD 0 RETRO_DEVICE_ID_JOYPAD_B ∧
    (poll_joypad 0 cb i s).retroJsState (RETRO_DEVICE_ID_JOYPAD_Y + i * 18)
        = cb i RETRO_DEVICE_JOYPAD 0 RETRO_DEVICE_ID_JOYPAD_Y ∧
    (poll_joypad 0 cb i s).retroJsState (RETRO_DEVICE_ID_JOYPAD_A + i * 18)
        = cb i RETRO_DEVICE_JOYPAD 0 RETRO_DEVICE_ID_JOYPAD_A ∧
    (poll_joypad 0 cb i s).retroJsState (RETRO_DEVICE_ID_JOYPAD_X + i * 18)
        = cb i RETRO_DEVICE_JOYPAD 0 RETRO_DEVICE_ID_JOYPAD_X := by
  unfold poll_joypad
  simp only [RETRO_DEVICE_ID_JOYPAD_B, RETRO_DEVICE_ID_JOYPAD_Y, RETRO_DEVICE_ID_JOYPAD_SELECT,
    RETRO_DEVICE_ID_JOYPAD_START, RETRO_DEVICE_ID_JOYPAD_UP, RETRO_DEVICE_ID_JOYPAD_DOWN,
    RETRO_DEVICE_ID_JOYPAD_LEFT, RETRO_DEVICE_ID_JOYPAD_RIGHT, RETRO_DEVICE_ID_JOYPAD_A,
    RETRO_DEVICE_ID_JOYPAD_X, RETRO_DEVICE_ID_JOYPAD_L, RETRO_DEVICE_ID_JOYPAD_R,
    RETRO_DEVICE_ID_JOYPAD_L2, RETRO_DEVICE_ID_JOYPAD_R2, RETRO_DEVICE_ID_JOYPAD_L3,
    RETRO_DEVICE_ID_JOYPAD_R3, setJs_js, ite_js, add_left_inj]
  simp

/-- C6: for every player slot `i` in 0..3 and every set of frontend readings, after
the input poll of `retro_run`: if right-stick-to-buttons is enabled and the
right-stick Y reading is above 0x4000, the B-button line of player `i` (index
`18 * i + RETRO_DEVICE_ID_JOYPAD_B`) is 1 whatever the native B reading; if the
option is disabled, each of the face-button lines B, Y, A, X of player `i` equals
the native digital reading of that button. -/
theorem rstick_to_btns_spec (rstick_to_btns mouse_device : Nat) (retroKeys : List Nat)
    (input_cb : InputCb) (s : InputState) (i : Nat) (hi : i < 4) :
    (rstick_to_btns ≠ 0 →
      input_cb i RETRO_DEVICE_ANALOG RETRO_DEVICE_INDEX_ANALOG_RIGHT RETRO_DEVICE_ID_ANALOG_Y > 0x4000 →
      (retro_run rstick_to_btns mouse_device retroKeys input_cb s).retroJsState
          (18 * i + RETRO_DEVICE_ID_JOYPAD_B) = 1) ∧
    (rstick_to_btns = 0 →
      (retro_run rstick_to_btns mouse_device retroKeys input_cb s).retroJsState
          (18 * i + RETRO_DEVICE_ID_JOYPAD_B)
        = input_cb i RETRO_DEVICE_JOYPAD 0 RETRO_DEVICE_ID_JOYPAD_B ∧
      (retro_run rstick_to_btns mouse_device retroKeys input_cb s).retroJsState
          (18 * i + RETRO_DEVICE_ID_JOYPAD_Y)
        = input_cb i RETRO_DEVICE_JOYPAD 0 RETRO_DEVICE_ID_JOYPAD_Y ∧
      (retro_run rstick_to_btns mouse_device retroKeys input_cb s).retroJsState
          (18 * i + RETRO_DEVICE_ID_JOYPAD_A)
        = input_cb i RETRO_DEVICE_JOYPAD 0 RETRO_DEVICE_ID_JOYPAD_A ∧
      (retro_run rstick_to_btns mouse_device retroKeys input_cb s).retroJsState
          (18 * i + RETRO_DEVICE_ID_JOYPAD_X)
        = input_cb i RETRO_DEVICE_JOYPAD 0 RETRO_DEVICE_ID_JOYPAD_X) := by
  have own : ∀ c, c < 16 → ∃ s',
      (retro_run rstick_to_btns mouse_device retroKeys input_cb s).retroJsState (18 * i + c)
        = (poll_joypad rstick_to_btns input_cb i (poll_analog input_cb i s')).retroJsState
            (c + i * 18) := by
    intro c hc
    obtain ⟨s', hs'⟩ := retro_run_js_own rstick_to_btns mouse_device retroKeys input_cb s i hi
      (18 * i + c) (by omega)
    refine ⟨s', ?_⟩
    rw [hs']
    unfold poll_player
    rw [poll_mouse_js mouse_device input_cb i _ _ (by omega)]
    congr 1
    omega
  constructor
  · intro hr hy
    obtain ⟨s', hs'⟩ := own RETRO_DEVICE_ID_JOYPAD_B (by decide)
    rw [hs']
    exact poll_joypad_rstick_B rstick_to_btns input_cb i _ hr
      (by rw [(poll_analog_right input_cb i s').1]; exact hy)
  · intro hr
    subst hr
    obtain ⟨s1, h1⟩ := own RETRO_DEVICE_ID_JOYPAD_B (by decide)
    obtain ⟨s2, h2⟩ := own RETRO_DEVICE_ID_JOYPAD_Y (by decide)
    obtain ⟨s3, h3⟩ := own RETRO_DEVICE_ID_JOYPAD_A (by decide)
    obtain ⟨s4, h4⟩ := own RETRO_DEVICE_ID_JOYPAD_X (by decide)
    rw [h1, h2, h3, h4]
    exact ⟨(poll_joypad_native input_cb i _).1, (poll_joypad_native input_cb i _).2.1,
      (poll_joypad_native input_cb i _).2.2.1, (poll_joypad_native input_cb i _).2.2.2⟩

/-- Witness of C6: player 2, right stick fully deflected, with the option enabled
and with it disabled. -/
theorem rstick_to_btns_witness :
    (retro_run 1 0 [] cb_stick_down input_example).retroJsState
        (18 * 2 + RETRO_DEVICE_ID_JOYPAD_B) = 1 ∧
    (retro_run 0 0 [] cb_stick_down input_example).retroJsState
        (18 * 2 + RETRO_DEVICE_ID_JOYPAD_B) = cb_stick_down 2 RETRO_DEVICE_JOYPAD 0 RETRO_DEVICE_ID_JOYPAD_B :=
  ⟨(rstick_to_btns_spec 1 0 [] cb_stick_down input_example 2 (by decide)).1 (by decide) (by decide),
   ((rstick_to_btns_spec 0 0 [] cb_stick_down input_example 2 (by decide)).2 rfl).1⟩

/-! ### Path resolution -/

/-- A formatted text shorter than the buffer is stored whole. -/
theorem snprintf_fits (s : CString) (h : s.length < 1024) : snprintf 1024 s = s := by
  unfold snprintf
  exact List.take_of_length_le (by omega)

/-- Root, product folder, category folder and file name, when the whole fits. -/
theorem two_level_fits (root sub filename : CString)
    (h : (root ++ [slash] ++ "mame2003".toList ++ [slash] ++ sub ++ [slash] ++ filename).length < 1024) :
    snprintf 1024 (snprintf 1024 (root ++ [slash] ++ parentDir ++ [slash] ++ sub) ++ [slash] ++ filename)
      = root ++ [slash] ++ "mame2003".toList ++ [slash] ++ sub ++ [slash] ++ filename := by
  have h1 : (root ++ [slash] ++ parentDir ++ [slash] ++ sub).length < 1024 := by
    simp only [List.length_append, parentDir] at h ⊢
    omega
  rw [snprintf_fits _ h1, snprintf_fits _ (by simpa [parentDir] using h)]
  rfl

/-- Root, product folder and file name, when the whole fits. -/
theorem one_level_fits (root filename : CString)
    (h : (root ++ [slash] ++ "mame2003".toList ++ [slash] ++ filename).length < 1024) :
    snprintf 1024 (snprintf 1024 (root ++ [slash] ++ parentDir) ++ [slash] ++ filename)
      = root ++ [slash] ++ "mame2003".toList ++ [slash] ++ filename := by
  have h1 : (root ++ [slash] ++ parentDir).length < 1024 := by
    simp only [List.length_append, parentDir] at h ⊢
    omega
  rw [snprintf_fits _ h1, snprintf_fits _ (by simpa [parentDir] using h)]
  rfl

/-- The category classes of the specification, read off the numeric category. -/
theorem spec_by_type (d : Dirs) (pathtype : Nat) (filename : CString) (hcat : pathtype < 19) :
    spec_resolved_path d pathtype filename =
      if pathtype = 1 ∨ pathtype = 2 then
        d.romDir ++ [slash] ++ filename
      else if pathtype = 3 ∨ pathtype = 7 ∨ pathtype = 8 ∨ pathtype = 10 ∨ pathtype = 11
          ∨ pathtype = 12 ∨ pathtype = 13 then
        d.saveDir ++ [slash] ++ "mame2003".toList ++ [slash] ++ paths_get pathtype ++ [slash] ++ filename
      else if pathtype = 9 ∨ pathtype = 14 ∨ pathtype = 15 then
        d.systemDir ++ [slash] ++ "mame2003".toList ++ [slash] ++ filename
      else
        d.systemDir ++ [slash] ++ "mame2003".toList ++ [slash] ++ paths_get pathtype ++ [slash] ++ filename := by
  unfold spec_resolved_path
  interval_cases pathtype <;> simp +decide [paths_get, paths]

/-- The path built from the category switch of `osd_fopen` / `osd_get_path_info`. -/
theorem switch_buffer (d : Dirs) (pathtype : Nat) (filename : CString) (hcat : pathtype < 19)
    (hfit : (spec_resolved_path d pathtype filename).length < 1024) :
    snprintf 1024
      ((if pathtype = 1 ∨ pathtype = 2 then
        d.romDir
      else if pathtype = 3 ∨ pathtype = 7 ∨ pathtype = 8 ∨ pathtype = 10 ∨ pathtype = 11
          ∨ pathtype = 12 ∨ pathtype = 13 then
        snprintf 1024 (d.saveDir ++ [slash] ++ parentDir ++ [slash] ++ paths_get pathtype)
      else if pathtype = 9 ∨ pathtype = 14 ∨ pathtype = 15 then
        snprintf 1024 (d.systemDir ++ [slash] ++ parentDir)
      else
        snprintf 1024 (d.systemDir ++ [slash] ++ parentDir ++ [slash] ++ paths_get pathtype))
        ++ [slash] ++ filename)
      = spec_resolved_path d pathtype filename := by
  rw [spec_by_type d pathtype filename hcat] at hfit ⊢
  split_ifs at hfit ⊢
  · exact snprintf_fits _ hfit
  · exact two_level_fits _ _ _ hfit
  · exact one_level_fits _ _ hfit
  · exact two_level_fits _ _ _ hfit

/-- C7: for every category (index below 19 into the `paths` table) and file name
such that the resolved path fits in the 1024-byte buffer, the path that
`osd_fopen` passes to `fopen` and the path that `osd_get_path_info` passes to
`stat` is the path the specification assigns: `rom_root/filename` for the rom and
image categories; `save_root/mame2003/sub/filename` for diff, nvram, hi, cfg, inp,
memcard and snap; `system_root/mame2003/filename` for hsdb, history and cheat;
`system_root/mame2003/sub/filename` for every other category (`sub` being the
entry of the category in `paths`). -/
theorem path_resolution (fs : FsOracle) (d : Dirs) (pathtype pathindex : Nat)
    (filename mode : CString) (calls : List FsCall)
    (hcat : pathtype < 19)
    (hfit : (spec_resolved_path d pathtype filename).length < 1024) :
    (osd_fopen fs d pathtype pathindex filename mode calls).2.getLast?
        = some (FsCall.fopen (spec_resolved_path d pathtype filename) mode) ∧
    (osd_get_path_info fs d pathtype pathindex filename calls).2
        = calls ++ [FsCall.stat (spec_resolved_path d pathtype filename)] := by
  constructor
  · unfold osd_fopen osd_fopen_buffer osd_fopen_currDir
    simp only [switch_buffer d pathtype filename hcat hfit]
    split_ifs <;> simp
  · unfold osd_get_path_info
    simp only [FILETYPE_ROM, FILETYPE_IMAGE, FILETYPE_IMAGE_DIFF, FILETYPE_NVRAM,
      FILETYPE_HIGHSCORE, FILETYPE_HIGHSCORE_DB, FILETYPE_CONFIG, FILETYPE_INPUTLOG,
      FILETYPE_MEMCARD, FILETYPE_SCREENSHOT, FILETYPE_HISTORY, FILETYPE_CHEAT,
      switch_buffer d pathtype filename hcat hfit]
    split_ifs <;> simp

/-- Witness of C7 with the roots `/roms`, `/save`, `/sys`: rom `game.zip`, config
`game.cfg` and history `history.dat`. -/
theorem path_resolution_witness :
    ((osd_fopen fs_all_missing dirs_example 1 0 "game.zip".toList "rb".toList []).2.getLast?
        = some (FsCall.fopen (spec_resolved_path dirs_example 1 "game.zip".toList) "rb".toList)
      ∧ spec_resolved_path dirs_example 1 "game.zip".toList = "/roms/game.zip".toList) ∧
    ((osd_fopen fs_all_missing dirs_example FILETYPE_CONFIG 0 "game.cfg".toList "wb".toList []).2.getLast?
        = some (FsCall.fopen (spec_resolved_path dirs_example FILETYPE_CONFIG "game.cfg".toList)
            "wb".toList)
      ∧ spec_resolved_path dirs_example FILETYPE_CONFIG "game.cfg".toList
          = "/save/mame2003/cfg/game.cfg".toList) ∧
    ((osd_get_path_info fs_all_missing dirs_example FILETYPE_HISTORY 0 "history.dat".toList []).2
        = [] ++ [FsCall.stat (spec_resolved_path dirs_example FILETYPE_HISTORY "history.dat".toList)]
      ∧ spec_resolved_path dirs_example FILETYPE_HISTORY "history.dat".toList
          = "/sys/mame2003/history.dat".toList) :=
  ⟨⟨(path_resolution fs_all_missing dirs_example 1 0 "game.zip".toList "rb".toList []
      (by decide) (by decide)).1, by decide⟩,
   ⟨(path_resolution fs_all_missing dirs_example FILETYPE_CONFIG 0 "game.cfg".toList "wb".toList []
      (by decide) (by decide)).1, by decide⟩,
   ⟨(path_resolution fs_all_missing dirs_example FILETYPE_HISTORY 0 "history.dat".toList
      "rb".toList [] (by decide) (by decide)).2, by decide⟩⟩

/-- C10, counterexample: with the roots `/roms`, `/save`, `/sys` and a file system
in which `stat` fails with `ENOENT` and `mkdir` fails with `EACCES`,
`osd_create_directory` returns 0 for the resolved directory `/save/mame2003/cfg`
and `osd_fopen` goes on to call `fopen` on `/save/mame2003/cfg/game.cfg`. -/
theorem osd_fopen_opens_after_failed_mkdir :
    osd_fopen_currDir dirs_example FILETYPE_CONFIG = "/save/mame2003/cfg".toList ∧
    (osd_create_directory fs_all_missing (osd_fopen_currDir dirs_example FILETYPE_CONFIG) []).1 = 0 ∧
    (osd_fopen fs_all_missing dirs_example FILETYPE_CONFIG 0 "game.cfg".toList "wb".toList []).2
      = [FsCall.stat "/save/mame2003/cfg".toList, FsCall.mkdir "/save/mame2003/cfg".toList,
         FsCall.fopen "/save/mame2003/cfg/game.cfg".toList "wb".toList] := by
  decide

/-- C10, amended: for every category, file name and mode: if creating the resolved
directory fails with an error other than "already exists" (`osd_create_directory`
returns 0), `osd_fopen` does not look at that result: after the calls of
`osd_create_directory` it calls `fopen` on the resolved path, and it returns a
null handle exactly when that `fopen` fails. -/
theorem osd_fopen_ignores_directory_result (fs : FsOracle) (d : Dirs) (pathtype pathindex : Nat)
    (filename mode : CString) (calls : List FsCall)
    (_hfail : (osd_create_directory fs (osd_fopen_currDir d pathtype) calls).1 = 0) :
    (osd_fopen fs d pathtype pathindex filename mode calls).2
      = (osd_create_directory fs (osd_fopen_currDir d pathtype) calls).2
          ++ [FsCall.fopen (osd_fopen_buffer d pathtype filename) mode] ∧
    ((osd_fopen fs d pathtype pathindex filename mode calls).1 = none
      ↔ fs.fopen_ok (osd_fopen_buffer d pathtype filename) mode = false) := by
  unfold osd_fopen
  by_cases h : fs.fopen_ok (osd_fopen_buffer d pathtype filename) mode = true
  · simp [h]
  · simp [h]

/-- Witness of the amended C10 at the file system in which nothing can be
created. -/
theorem osd_fopen_ignores_directory_result_witness :
    (osd_fopen fs_all_missing dirs_example FILETYPE_CONFIG 0 "game.cfg".toList "wb".toList []).2
      = (osd_create_directory fs_all_missing (osd_fopen_currDir dirs_example FILETYPE_CONFIG) []).2
          ++ [FsCall.fopen (osd_fopen_buffer dirs_example FILETYPE_CONFIG "game.cfg".toList)
                "wb".toList] :=
  (osd_fopen_ignores_directory_result fs_all_missing dirs_example FILETYPE_CONFIG 0
    "game.cfg".toList "wb".toList [] (by decide)).1

/-! ### Snapshot sequencers -/

/-- The processor loop on the recording core: it succeeds exactly when every
processor segment write succeeds, never calls the finalize step, and on success
has issued the tags of the processors in order. -/
theorem serialize_cpus_trace (dump_size total : Nat) (save_ok load_ok : Nat → Bool) (b : Bool)
    (l : List Nat) : ∀ (s : TraceState),
    ((retro_serialize_cpus (traceCore dump_size total save_ok load_ok b) l s).1 = true
        ↔ ∀ c ∈ l, save_ok (c + 1) = true) ∧
    ∃ ev, (retro_serialize_cpus (traceCore dump_size total save_ok load_ok b) l s).2.events
          = s.events ++ ev ∧
      ev.count SnapEvent.save_finish = 0 ∧
      ((retro_serialize_cpus (traceCore dump_size total save_ok load_ok b) l s).1 = true →
        issued_tags ev = l.map (· + 1)) := by
  induction l with
  | nil =>
    intro s
    refine ⟨by simp [retro_serialize_cpus], [], by simp [retro_serialize_cpus], by simp, ?_⟩
    intro _; rfl
  | cons c rest ih =>
    intro s
    by_cases hok : save_ok (c + 1) = true
    · obtain ⟨h1, ev, h2, h3, h4⟩ := ih
        { tag := c + 1, events := s.events ++ [SnapEvent.push_context c] ++ [SnapEvent.reset_banking]
            ++ [SnapEvent.set_current_tag (c + 1)] ++ [SnapEvent.save_continue (c + 1)]
            ++ [SnapEvent.pop_context] }
      have e : retro_serialize_cpus (traceCore dump_size total save_ok load_ok b) (c :: rest) s
          = retro_serialize_cpus (traceCore dump_size total save_ok load_ok b) rest
            { tag := c + 1, events := s.events ++ [SnapEvent.push_context c]
              ++ [SnapEvent.reset_banking]
              ++ [SnapEvent.set_current_tag (c + 1)] ++ [SnapEvent.save_continue (c + 1)]
              ++ [SnapEvent.pop_context] } := by
        simp [retro_serialize_cpus, traceCore, hok]
      rw [e]
      refine ⟨?_, ?_⟩
      · rw [h1]; simp [hok]
      · refine ⟨[SnapEvent.push_context c, SnapEvent.reset_banking,
          SnapEvent.set_current_tag (c + 1), SnapEvent.save_continue (c + 1),
          SnapEvent.pop_context] ++ ev, ?_, ?_, ?_⟩
        · rw [h2]; simp
        · simp [List.count_cons, h3]
        · intro hr
          have := h4 hr
          simp [issued_tags, List.filterMap_cons, List.filterMap_append] at this ⊢
          exact this
    · have e : retro_serialize_cpus (traceCore dump_size total save_ok load_ok b) (c :: rest) s
          = (false, { tag := c + 1, events := s.events ++ [SnapEvent.push_context c]
              ++ [SnapEvent.reset_banking]
              ++ [SnapEvent.set_current_tag (c + 1)] ++ [SnapEvent.save_continue (c + 1)] }) := by
        simp [retro_serialize_cpus, traceCore, hok]
      rw [e]
      refine ⟨?_, ?_⟩
      · simp [hok]
      · refine ⟨[SnapEvent.push_context c, SnapEvent.reset_banking,
          SnapEvent.set_current_tag (c + 1), SnapEvent.save_continue (c + 1)], by simp, by simp, ?_⟩
        intro h; simp at h

/-- All tags 0..total succeed: tag 0 and the tag of every processor. -/
theorem all_tags_ok_iff (total : Nat) (save_ok : Nat → Bool) :
    (∀ t, t ≤ total → save_ok t = true) ↔
      (save_ok 0 = true ∧ ∀ c ∈ List.range total, save_ok (c + 1) = true) := by
  constructor
  · intro h
    refine ⟨h 0 (Nat.zero_le _), ?_⟩
    intro c hc
    exact h (c + 1) (by have := List.mem_range.mp hc; omega)
  · rintro ⟨h0, h⟩ t ht
    cases t with
    | zero => exact h0
    | succ c => exact h c (List.mem_range.mpr (by omega))

/-- Tag 0 followed by the processor tags is the list 0..total. -/
theorem range_succ_tags (total : Nat) :
    0 :: (List.range total).map (· + 1) = List.range (total + 1) := by
  rw [List.range_succ_eq_map]

/-- The traced run once the precondition holds. -/
theorem traced_serialize_eq (dump_size total : Nat) (save_ok : Nat → Bool) (size : Nat)
    (hd : dump_size ≠ 0) (hs : size ≠ 0) :
    traced_serialize dump_size total save_ok (some ()) size =
      if save_ok 0 = true then
        if (retro_serialize_cpus (traceCore dump_size total save_ok (fun _ => true) true)
            (List.range total) after_global_write).1 = false then
          (false, (retro_serialize_cpus (traceCore dump_size total save_ok (fun _ => true) true)
            (List.range total) after_global_write).2)
        else
          (true,
            { tag := (retro_serialize_cpus (traceCore dump_size total save_ok (fun _ => true) true)
                (List.range total) after_global_write).2.tag
              events := (retro_serialize_cpus
                (traceCore dump_size total save_ok (fun _ => true) true)
                (List.range total) after_global_write).2.events ++ [SnapEvent.save_finish] })
      else (false, after_global_write) := by
  unfold traced_serialize retro_serialize retro_serialize_size after_global_write
  by_cases h0 : save_ok 0 = true
  · simp [traceCore, hd, hs, h0]
  · simp [traceCore, hd, hs, h0]

/-- C8: on the recording core, `retro_serialize` returns success exactly when the
reported dump size is non-zero, the buffer is non-null, the given size is
non-zero, and the global (tag 0) segment write and every per-processor segment
write (tags 1..n) succeed; the finalize step `state_save_save_finish` runs exactly
once on success and never on a failing call; on success the tags were issued in
the order 0, 1, ..., n; and when the size/buffer precondition fails no call of
the save machinery is made at all. -/
theorem retro_serialize_all_or_nothing (dump_size total : Nat) (save_ok : Nat → Bool)
    (data : Option Unit) (size : Nat) :
    ((traced_serialize dump_size total save_ok data size).1 = true ↔
      (dump_size ≠ 0 ∧ data.isSome = true ∧ size ≠ 0 ∧ ∀ t, t ≤ total → save_ok t = true)) ∧
    ((traced_serialize dump_size total save_ok data size).2.events.count SnapEvent.save_finish
      = if (traced_serialize dump_size total save_ok data size).1 = true then 1 else 0) ∧
    ((traced_serialize dump_size total save_ok data size).1 = true →
      issued_tags (traced_serialize dump_size total save_ok data size).2.events
        = List.range (total + 1)) ∧
    (¬ (dump_size ≠ 0 ∧ data.isSome = true ∧ size ≠ 0) →
      (traced_serialize dump_size total save_ok data size).2.events = []) := by
  by_cases hd : dump_size = 0
  · simp [traced_serialize, retro_serialize, retro_serialize_size, traceCore, hd]
  cases data with
  | none => simp [traced_serialize, retro_serialize, retro_serialize_size, traceCore, hd]
  | some buf =>
    by_cases hs : size = 0
    · simp [traced_serialize, retro_serialize, retro_serialize_size, traceCore, hd, hs]
    rw [traced_serialize_eq dump_size total save_ok size hd hs, all_tags_ok_iff]
    obtain ⟨l1, ev, l2, l3, l4⟩ := serialize_cpus_trace dump_size total save_ok (fun _ => true)
        true (List.range total) after_global_write
    generalize retro_serialize_cpus (traceCore dump_size total save_ok (fun _ => true) true)
      (List.range total) after_global_write = lr at l1 l2 l3 l4 ⊢
    obtain ⟨ok, st⟩ := lr
    by_cases h0 : save_ok 0 = true
    · cases ok with
      | true =>
        have hall := l1.mp rfl
        have htags := l4 rfl
        simp only [] at l2
        simp [hd, hs, h0, hall, l2, l3, after_global_write, List.count_cons, List.count_append,
          issued_tags, List.filterMap_append]
        refine ⟨fun c hc => hall c (List.mem_range.mpr hc), ?_⟩
        rw [← range_succ_tags]
        congr 1
      | false =>
        have hall : ¬ ∀ c ∈ List.range total, save_ok (c + 1) = true := by
          intro h; have := l1.mpr h; simp at this
        simp only [] at l2
        simp [hd, hs, h0, hall, l2, l3, after_global_write, List.count_cons, List.count_append]
        by_contra hne
        push_neg at hne
        apply hall
        intro c hc
        have := hne c (List.mem_range.mp hc)
        simpa using this
    · simp [hd, hs, h0, after_global_write]

/-- C9, counterexample: a one-processor machine (global state 1, processor state
1) and a stream cut after its global segment (payload 7).  The global segment
reads, the first processor segment does not, `retro_unserialize` returns failure,
and the machine is not as before the call: its global state is 7. -/
theorem unserialize_half_restored :
    truncated_stream.lookup 0 = some 7 ∧
    truncated_stream.lookup 1 = none ∧
    (retro_unserialize (inPlaceCore 1) (some truncated_stream) 1 machine_before).1 = false ∧
    (retro_unserialize (inPlaceCore 1) (some truncated_stream) 1 machine_before).2.global = 7 ∧
    ((retro_unserialize (inPlaceCore 1) (some truncated_stream) 1 machine_before).2.global,
      (retro_unserialize (inPlaceCore 1) (some truncated_stream) 1 machine_before).2.cpu)
      ≠ (machine_before.global, machine_before.cpu) := by
  decide

/-- C9, amended: for every stream whose global segment reads successfully but whose
first processor segment read fails, `retro_unserialize` returns failure; the
global segment has by then been applied in place (the global state of the machine
is the payload of the stream), while no processor segment has been applied (every
processor state is as before the call). -/
theorem unserialize_global_applied (total : Nat) (w : RestoreWorld) (data : List (Nat × Nat))
    (size g : Nat) (htotal : 1 ≤ total) (hsize : size ≠ 0)
    (hglobal : data.lookup 0 = some g) (hcpu : data.lookup 1 = none) :
    (retro_unserialize (inPlaceCore total) (some data) size w).1 = false ∧
    (retro_unserialize (inPlaceCore total) (some data) size w).2.global = g ∧
    (retro_unserialize (inPlaceCore total) (some data) size w).2.cpu = w.cpu := by
  obtain ⟨k, rfl⟩ : ∃ k, total = k + 1 := ⟨total - 1, by omega⟩
  unfold retro_unserialize retro_serialize_size
  simp [inPlaceCore, hsize, hglobal, apply_segment, List.range_succ_eq_map,
    retro_unserialize_cpus, hcpu]

/-- Witness of the amended C9 at the truncated stream. -/
theorem unserialize_global_applied_witness :
    (retro_unserialize (inPlaceCore 1) (some truncated_stream) 1 machine_before).1 = false ∧
    (retro_unserialize (inPlaceCore 1) (some truncated_stream) 1 machine_before).2.global = 7 ∧
    (retro_unserialize (inPlaceCore 1) (some truncated_stream) 1 machine_before).2.cpu
      = machine_before.cpu :=
  unserialize_global_applied 1 machine_before truncated_stream 1 7 (le_refl _) (by decide)
    (by decide) (by decide)

/-! ### Pointer and mouse part of the input poll -/

/-- The keyboard loop leaves the pointer scalars, the motion arrays and the joypad
lines alone. -/
theorem keys_fold_pointer (cb : InputCb) (keys : List Nat) : ∀ (s : InputState),
    (keys.foldl (fun st code => setKey st code (cb 0 RETRO_DEVICE_KEYBOARD 0 code)) s).prev_pointer_x
        = s.prev_pointer_x ∧
    (keys.foldl (fun st code => setKey st code (cb 0 RETRO_DEVICE_KEYBOARD 0 code)) s).prev_pointer_y
        = s.prev_pointer_y ∧
    (keys.foldl (fun st code => setKey st code (cb 0 RETRO_DEVICE_KEYBOARD 0 code)) s).mouse_x
        = s.mouse_x ∧
    (keys.foldl (fun st code => setKey st code (cb 0 RETRO_DEVICE_KEYBOARD 0 code)) s).mouse_y
        = s.mouse_y ∧
    (keys.foldl (fun st code => setKey st code (cb 0 RETRO_DEVICE_KEYBOARD 0 code)) s).retroJsState
        = s.retroJsState := by
  induction keys with
  | nil => intro s; simp
  | cons k ks ih =>
    intro s
    simp only [List.foldl_cons]
    obtain ⟨h1, h2, h3, h4, h5⟩ := ih (setKey s k (cb 0 RETRO_DEVICE_KEYBOARD 0 k))
    exact ⟨h1, h2, h3, h4, h5⟩

/-- The analog and joypad stores leave the pointer scalars and the motion arrays
alone. -/
theorem poll_joypad_analog_motion (r : Nat) (cb : InputCb) (i : Nat) (s : InputState) :
    (poll_joypad r cb i (poll_analog cb i s)).prev_pointer_x = s.prev_pointer_x ∧
    (poll_joypad r cb i (poll_analog cb i s)).prev_pointer_y = s.prev_pointer_y ∧
    (poll_joypad r cb i (poll_analog cb i s)).mouse_x = s.mouse_x ∧
    (poll_joypad r cb i (poll_analog cb i s)).mouse_y = s.mouse_y := by
  unfold poll_joypad poll_analog
  by_cases hr : r = 0
  · simp [hr, setJs, setAnalog]
  · simp [hr, setJs, setAnalog]

/-- The stored previous coordinate is the current one after `get_pointer_delta`. -/
theorem get_pointer_delta_stores (c p : Int) : (get_pointer_delta c p).2 = c := by
  unfold get_pointer_delta
  by_cases h : p = 0 ∨ c = 0
  · simp [h]
  · by_cases h2 : c = p
    · simp [h, h2]
    · simp [h, h2]

/-- With both coordinates non-zero the delta is the wrapped difference. -/
theorem get_pointer_delta_nonzero (c p : Int) (hc : c ≠ 0) (hp : p ≠ 0) :
    (get_pointer_delta c p).1 = toInt16 (c - p) := by
  unfold get_pointer_delta
  by_cases h2 : c = p
  · simp [hc, hp, h2, toInt16]
  · simp [hc, hp, h2]

/-- A player pass in pointer mode: what it leaves in the pointer scalars and in
the motion arrays. -/
theorem poll_player_pointer (r m : Nat) (cb : InputCb) (i : Nat) (s : InputState)
    (hm0 : m ≠ 0) (hm : m ≠ RETRO_DEVICE_MOUSE) :
    (poll_player r m cb i s).prev_pointer_x
        = (if cb i RETRO_DEVICE_POINTER 0 RETRO_DEVICE_ID_POINTER_PRESSED ≠ 0
            then cb i RETRO_DEVICE_POINTER 0 RETRO_DEVICE_ID_POINTER_X else s.prev_pointer_x) ∧
    (poll_player r m cb i s).prev_pointer_y
        = (if cb i RETRO_DEVICE_POINTER 0 RETRO_DEVICE_ID_POINTER_PRESSED ≠ 0
            then cb i RETRO_DEVICE_POINTER 0 RETRO_DEVICE_ID_POINTER_Y else s.prev_pointer_y) ∧
    (poll_player r m cb i s).mouse_x
        = Function.update s.mouse_x i
          (if cb i RETRO_DEVICE_POINTER 0 RETRO_DEVICE_ID_POINTER_PRESSED ≠ 0
            then (get_pointer_delta (cb i RETRO_DEVICE_POINTER 0 RETRO_DEVICE_ID_POINTER_X)
              s.prev_pointer_x).1 else 0) ∧
    (poll_player r m cb i s).mouse_y
        = Function.update s.mouse_y i
          (if cb i RETRO_DEVICE_POINTER 0 RETRO_DEVICE_ID_POINTER_PRESSED ≠ 0
            then (get_pointer_delta (cb i RETRO_DEVICE_POINTER 0 RETRO_DEVICE_ID_POINTER_Y)
              s.prev_pointer_y).1 else 0) := by
  obtain ⟨h1, h2, h3, h4⟩ := poll_joypad_analog_motion r cb i s
  unfold poll_player poll_mouse
  rw [if_pos hm0, if_neg hm]
  by_cases hp : cb i RETRO_DEVICE_POINTER 0 RETRO_DEVICE_ID_POINTER_PRESSED = 0
  · simp [hp, setMouseX, setMouseY, setJs, h1, h2, h3, h4]
  · simp [hp, setMouseX, setMouseY, setJs, h1, h2, h3, h4, get_pointer_delta_stores]

/-- C11, counterexample: pointer mode, two frames.  (a) Players 0 and 1 both keep
their pointer pressed and both move by (10, 5): the motion written for player 0 is
110 - 200 = -90 (against the coordinate player 1 stored in the previous frame) and
the motion written for player 1 is 210 - 110 = 100 (against the coordinate player
0 stored a moment before), not 10.  (b) A single pointer that goes from x = 32767
to x = -32767 gets the motion 2, the 16-bit wrap of -65534. -/
theorem pointer_delta_mixes_players :
    (retro_run 0 RETRO_DEVICE_POINTER [] cb_two_pointers_2
      (retro_run 0 RETRO_DEVICE_POINTER [] cb_two_pointers_1 input_example)).mouse_x 0 = -90 ∧
    (retro_run 0 RETRO_DEVICE_POINTER [] cb_two_pointers_2
      (retro_run 0 RETRO_DEVICE_POINTER [] cb_two_pointers_1 input_example)).mouse_x 1 = 100 ∧
    cb_two_pointers_2 0 RETRO_DEVICE_POINTER 0 RETRO_DEVICE_ID_POINTER_X
      - cb_two_pointers_1 0 RETRO_DEVICE_POINTER 0 RETRO_DEVICE_ID_POINTER_X = 10 ∧
    cb_two_pointers_2 1 RETRO_DEVICE_POINTER 0 RETRO_DEVICE_ID_POINTER_X
      - cb_two_pointers_1 1 RETRO_DEVICE_POINTER 0 RETRO_DEVICE_ID_POINTER_X = 10 ∧
    (retro_run 0 RETRO_DEVICE_POINTER [] cb_pointer_left_edge
      (retro_run 0 RETRO_DEVICE_POINTER [] cb_pointer_right_edge input_example)).mouse_x 0 = 2 ∧
    cb_pointer_left_edge 0 RETRO_DEVICE_POINTER 0 RETRO_DEVICE_ID_POINTER_X
      - cb_pointer_right_edge 0 RETRO_DEVICE_POINTER 0 RETRO_DEVICE_ID_POINTER_X = -65534 := by
  decide

/-- C11, amended: in absolute-pointer mode, for every player slot `i` in 0..3 whose
pointer is pressed in both the previous and the current frame with non-zero
coordinates in both, and provided no other pointer is pressed between the two
polls of player `i` (no higher slot in the previous frame, no lower slot in the
current frame), the motion written to `mouse_x[i]` (resp. `mouse_y[i]`) by the
current poll is the current X (resp. Y) coordinate of that player minus its
coordinate from the previous frame, as a 16-bit signed value. -/
theorem pointer_delta_single_pointer (r m : Nat) (keys1 keys2 : List Nat)
    (cb1 cb2 : InputCb) (s : InputState) (i : Nat) (hi : i < 4)
    (hm0 : m ≠ 0) (hm : m ≠ RETRO_DEVICE_MOUSE)
    (hp1 : cb1 i RETRO_DEVICE_POINTER 0 RETRO_DEVICE_ID_POINTER_PRESSED ≠ 0)
    (hp2 : cb2 i RETRO_DEVICE_POINTER 0 RETRO_DEVICE_ID_POINTER_PRESSED ≠ 0)
    (hx1 : cb1 i RETRO_DEVICE_POINTER 0 RETRO_DEVICE_ID_POINTER_X ≠ 0)
    (hx2 : cb2 i RETRO_DEVICE_POINTER 0 RETRO_DEVICE_ID_POINTER_X ≠ 0)
    (hy1 : cb1 i RETRO_DEVICE_POINTER 0 RETRO_DEVICE_ID_POINTER_Y ≠ 0)
    (hy2 : cb2 i RETRO_DEVICE_POINTER 0 RETRO_DEVICE_ID_POINTER_Y ≠ 0)
    (hafter : ∀ j, j < 4 → i < j →
      cb1 j RETRO_DEVICE_POINTER 0 RETRO_DEVICE_ID_POINTER_PRESSED = 0)
    (hbefore : ∀ j, j < i →
      cb2 j RETRO_DEVICE_POINTER 0 RETRO_DEVICE_ID_POINTER_PRESSED = 0) :
    (retro_run r m keys2 cb2 (retro_run r m keys1 cb1 s)).mouse_x i
        = toInt16 (cb2 i RETRO_DEVICE_POINTER 0 RETRO_DEVICE_ID_POINTER_X
            - cb1 i RETRO_DEVICE_POINTER 0 RETRO_DEVICE_ID_POINTER_X) ∧
    (retro_run r m keys2 cb2 (retro_run r m keys1 cb1 s)).mouse_y i
        = toInt16 (cb2 i RETRO_DEVICE_POINTER 0 RETRO_DEVICE_ID_POINTER_Y
            - cb1 i RETRO_DEVICE_POINTER 0 RETRO_DEVICE_ID_POINTER_Y) := by
  have hdx := get_pointer_delta_nonzero _ _ hx2 hx1
  have hdy := get_pointer_delta_nonzero _ _ hy2 hy1
  unfold retro_run
  rw [range4]
  simp only [List.foldl_cons, List.foldl_nil]
  have q1 := fun j t => poll_player_pointer r m cb1 j t hm0 hm
  have q2 := fun j t => poll_player_pointer r m cb2 j t hm0 hm
  have k1 := keys_fold_pointer cb1 keys1
  have k2 := keys_fold_pointer cb2 keys2
  interval_cases i
  · have a1 := hafter 1 (by omega) (by omega)
    have a2 := hafter 2 (by omega) (by omega)
    have a3 := hafter 3 (by omega) (by omega)
    simp [q1, q2, k1, k2, a1, a2, a3, hp1, hp2, hdx, hdy]
  · have a2 := hafter 2 (by omega) (by omega)
    have a3 := hafter 3 (by omega) (by omega)
    have b0 := hbefore 0 (by omega)
    simp [q1, q2, k1, k2, a2, a3, b0, hp1, hp2, hdx, hdy]
  · have a3 := hafter 3 (by omega) (by omega)
    have b0 := hbefore 0 (by omega)
    have b1 := hbefore 1 (by omega)
    simp [q1, q2, k1, k2, a3, b0, b1, hp1, hp2, hdx, hdy]
  · have b0 := hbefore 0 (by omega)
    have b1 := hbefore 1 (by omega)
    have b2 := hbefore 2 (by omega)
    simp [q1, q2, k1, k2, b0, b1, b2, hp1, hp2, hdx, hdy]

/-- Witness of the amended C11: player 2 alone keeps its pointer pressed and moves
from (100, 50) to (150, 40). -/
theorem pointer_delta_single_pointer_witness :
    (retro_run 0 RETRO_DEVICE_POINTER [] cb_one_pointer_2
        (retro_run 0 RETRO_DEVICE_POINTER [] cb_one_pointer_1 input_example)).mouse_x 2
      = toInt16 (cb_one_pointer_2 2 RETRO_DEVICE_POINTER 0 RETRO_DEVICE_ID_POINTER_X
          - cb_one_pointer_1 2 RETRO_DEVICE_POINTER 0 RETRO_DEVICE_ID_POINTER_X) ∧
    (retro_run 0 RETRO_DEVICE_POINTER [] cb_one_pointer_2
        (retro_run 0 RETRO_DEVICE_POINTER [] cb_one_pointer_1 input_example)).mouse_y 2
      = toInt16 (cb_one_pointer_2 2 RETRO_DEVICE_POINTER 0 RETRO_DEVICE_ID_POINTER_Y
          - cb_one_pointer_1 2 RETRO_DEVICE_POINTER 0 RETRO_DEVICE_ID_POINTER_Y) :=
  pointer_delta_single_pointer 0 RETRO_DEVICE_POINTER [] [] cb_one_pointer_1 cb_one_pointer_2
    input_example 2 (by decide) (by decide) (by decide) (by decide) (by decide) (by decide)
    (by decide) (by decide) (by decide) (by decide) (by decide)

/-- C12, evaluation at the failing input: a frame polled in mouse mode (every mouse
moving by (5, -3)) followed by a frame polled with the mouse device disabled.
After the second poll both button lines of every player are 0, but the motion
entries still hold (5, -3): the disabled branch never writes `mouse_x` or
`mouse_y`. -/
theorem disabled_mode_keeps_stale_motion :
    (retro_run 0 0 [] cb_mouse_moving
      (retro_run 0 RETRO_DEVICE_MOUSE [] cb_mouse_moving input_example)).retroJsState (18 * 0 + 16)
        = 0 ∧
    (retro_run 0 0 [] cb_mouse_moving
      (retro_run 0 RETRO_DEVICE_MOUSE [] cb_mouse_moving input_example)).retroJsState (18 * 0 + 17)
        = 0 ∧
    (retro_run 0 0 [] cb_mouse_moving
      (retro_run 0 RETRO_DEVICE_MOUSE [] cb_mouse_moving input_example)).mouse_x 0 = 5 ∧
    (retro_run 0 0 [] cb_mouse_moving
      (retro_run 0 RETRO_DEVICE_MOUSE [] cb_mouse_moving input_example)).mouse_y 0 = -3 ∧
    (retro_run 0 0 [] cb_mouse_moving
      (retro_run 0 RETRO_DEVICE_MOUSE [] cb_mouse_moving input_example)).mouse_x 3 = 5 := by
  decide

/-! ### Content loading -/

/-- When `strchr` finds nothing the character does not occur. -/
theorem strchr_none (c : Char) : ∀ (p : CString), strchr p c = none → c ∉ p := by
  intro p
  induction p with
  | nil => intro _; simp
  | cons x xs ih =>
    intro h
    unfold strchr at h
    by_cases hx : x = c
    · simp [hx] at h
    · simp only [hx, if_false, Option.map_eq_none'] at h
      have := ih h
      simp [this, Ne.symm hx]

/-- The index found by `strchr` splits the string at the first occurrence. -/
theorem strchr_some (c : Char) : ∀ (p : CString) (k : Nat), strchr p c = some k →
    ∃ l1 l2, p = l1 ++ c :: l2 ∧ l1.length = k ∧ c ∉ l1 := by
  intro p
  induction p with
  | nil => intro k h; simp [strchr] at h
  | cons x xs ih =>
    intro k h
    unfold strchr at h
    by_cases hx : x = c
    · simp only [hx, if_true, Option.some.injEq] at h
      exact ⟨[], xs, by simp [hx], by simp [h], by simp⟩
    · simp only [hx, if_false, Option.map_eq_some'] at h
      obtain ⟨k', hk', rfl⟩ := h
      obtain ⟨l1, l2, e, hl, hn⟩ := ih k' hk'
      exact ⟨x :: l1, l2, by simp [e], by simp [hl], by simp [hn, Ne.symm hx]⟩

/-- A string without the foreign separator is its own normal form. -/
theorem map_no_replaced (p : CString) (h : replaced ∉ p) :
    (p.map fun c => if c = replaced then PATH_SEPARATOR else c) = p := by
  induction p with
  | nil => rfl
  | cons x xs ih =>
    have hx : x ≠ replaced := by intro e; apply h; simp [e]
    have hxs : replaced ∉ xs := by intro e; apply h; simp [e]
    simp [hx, ih hxs]

/-- With at least as much fuel as there are foreign separators, the loop replaces
every one of them. -/
theorem normalizePath_loop_eq : ∀ (fuel : Nat) (p : CString), p.count replaced ≤ fuel →
    normalizePath_loop fuel p = p.map fun c => if c = replaced then PATH_SEPARATOR else c := by
  intro fuel
  induction fuel with
  | zero =>
    intro p h
    have hc : replaced ∉ p := by
      intro hm
      have := List.count_pos_iff.mpr hm
      omega
    simp only [normalizePath_loop]
    exact (map_no_replaced p hc).symm
  | succ n ih =>
    intro p h
    unfold normalizePath_loop
    cases hs : strchr p replaced with
    | none =>
      simp only
      exact (map_no_replaced p (strchr_none replaced p hs)).symm
    | some tok =>
      simp only
      obtain ⟨l1, l2, e, hl, hn⟩ := strchr_some replaced p tok hs
      have hsep : PATH_SEPARATOR ≠ replaced := by decide
      have hset : p.set tok PATH_SEPARATOR = l1 ++ PATH_SEPARATOR :: l2 := by
        rw [e, ← hl]
        simp
      rw [hset, ih]
      · rw [e]
        simp [map_no_replaced l1 hn, hsep]
      · rw [e] at h
        simp only [List.count_append, List.count_cons_self] at h
        have hc2 : (PATH_SEPARATOR :: l2).count replaced = l2.count replaced :=
          List.count_cons_of_ne (Ne.symm hsep) l2
        simp only [List.count_append, hc2]
        omega

/-- The loop of `normalizePath` runs to its end: the result is the string with
every foreign separator replaced by the native one. -/
theorem normalizePath_eq_map (p : CString) :
    normalizePath p = p.map fun c => if c = replaced then PATH_SEPARATOR else c :=
  normalizePath_loop_eq p.length p (List.count_le_length _ _)

/-- C13, evaluation at the failing input: content `/home/user/roms/pacman.zip`
(driver index 1 of the example table), whose containing directory is
`/home/user/roms`.  With both directories supplied the rom root is that directory.
With the save directory unsupplied the buffer is peeled twice and the rom root
and the save root are `/home/user`; with both unsupplied it is peeled three times
and all three roots are `/home` (an empty string counts as unsupplied). -/
theorem load_game_peels_fallback_repeatedly :
    peelPathItem (normalizePath "/home/user/roms/pacman.zip".toList) = "/home/user/roms".toList ∧
    (retro_load_game drivers_example (fun _ => 0) (some "/sys".toList) (some "/save".toList)
        (some game_pacman) load_initial).1 = true ∧
    dir_string
        (retro_load_game drivers_example (fun _ => 0) (some "/sys".toList) (some "/save".toList)
          (some game_pacman) load_initial).2
        (retro_load_game drivers_example (fun _ => 0) (some "/sys".toList) (some "/save".toList)
          (some game_pacman) load_initial).2.romDir
      = some "/home/user/roms".toList ∧
    dir_string
        (retro_load_game drivers_example (fun _ => 0) (some "/sys".toList) none
          (some game_pacman) load_initial).2
        (retro_load_game drivers_example (fun _ => 0) (some "/sys".toList) none
          (some game_pacman) load_initial).2.romDir
      = some "/home/user".toList ∧
    dir_string
        (retro_load_game drivers_example (fun _ => 0) (some "/sys".toList) none
          (some game_pacman) load_initial).2
        (retro_load_game drivers_example (fun _ => 0) (some "/sys".toList) none
          (some game_pacman) load_initial).2.saveDir
      = some "/home/user".toList ∧
    dir_string
        (retro_load_game drivers_example (fun _ => 0) none none (some game_pacman) load_initial).2
        (retro_load_game drivers_example (fun _ => 0) none none (some game_pacman)
          load_initial).2.romDir
      = some "/home".toList ∧
    dir_string
        (retro_load_game drivers_example (fun _ => 0) none none (some game_pacman) load_initial).2
        (retro_load_game drivers_example (fun _ => 0) none none (some game_pacman)
          load_initial).2.systemDir
      = some "/home".toList ∧
    dir_string
        (retro_load_game drivers_example (fun _ => 0) none (some []) (some game_pacman)
          load_initial).2
        (retro_load_game drivers_example (fun _ => 0) none (some []) (some game_pacman)
          load_initial).2.saveDir
      = some "/home".toList := by
  decide

/-- C16, evaluation at the failing inputs, with the example table (`puckman` at
index 0, `pacman` at index 1) and a machine core that boots every index.  Content
`puckman.zip` matches the driver at index 0: `retro_load_game` returns false and
`run_game` is not called.  Content `galaga.zip` matches no driver
(`getDriverIndex` returns -1): `run_game(-1)` is called and true is returned.
Content `pacman.zip` (index 1) boots as the claim says. -/
theorem load_game_tests_index_for_nonzero :
    getDriverIndex drivers_example game_puckman.path = 0 ∧
    retro_load_game drivers_example (fun _ => 0) none none (some game_puckman) load_initial
      = (false, load_initial) ∧
    getDriverIndex drivers_example game_galaga.path = -1 ∧
    (retro_load_game drivers_example (fun _ => 0) none none (some game_galaga) load_initial).1
      = true ∧
    (retro_load_game drivers_example (fun _ => 0) none none (some game_galaga)
      load_initial).2.run_game_calls = [-1] ∧
    getDriverIndex drivers_example game_pacman.path = 1 ∧
    (retro_load_game drivers_example (fun _ => 0) none none (some game_pacman) load_initial).1
      = true ∧
    (retro_load_game drivers_example (fun _ => 0) none none (some game_pacman)
      load_initial).2.run_game_calls = [1] ∧
    (retro_load_game drivers_example (fun _ => 0) none none none load_initial)
      = (false, load_initial) := by
  decide

/-! ### Context discipline of the snapshot sequencers -/

/-- C15, evaluation at the failing input: a one-processor machine on the recording
core.  When the processor segment (tag 1) cannot be written, `retro_serialize`
returns false with one `cpuintrf_push_context` call and no `cpuintrf_pop_context`
call made; when it cannot be read, `retro_unserialize` does the same.  On the
successful runs, and when the global segment (tag 0) fails, the two counts are
equal. -/
theorem failing_segment_leaves_context_pushed :
    (traced_serialize 1 1 (fun t => t != 1) (some ()) 1).1 = false ∧
    push_count (traced_serialize 1 1 (fun t => t != 1) (some ()) 1).2.events = 1 ∧
    pop_count (traced_serialize 1 1 (fun t => t != 1) (some ()) 1).2.events = 0 ∧
    (traced_unserialize 1 1 (fun t => t != 1) true (some ()) 1).1 = false ∧
    push_count (traced_unserialize 1 1 (fun t => t != 1) true (some ()) 1).2.events = 1 ∧
    pop_count (traced_unserialize 1 1 (fun t => t != 1) true (some ()) 1).2.events = 0 ∧
    (traced_serialize 1 1 (fun _ => true) (some ()) 1).1 = true ∧
    push_count (traced_serialize 1 1 (fun _ => true) (some ()) 1).2.events = 1 ∧
    pop_count (traced_serialize 1 1 (fun _ => true) (some ()) 1).2.events = 1 ∧
    (traced_unserialize 1 1 (fun _ => true) true (some ()) 1).1 = true ∧
    push_count (traced_unserialize 1 1 (fun _ => true) true (some ()) 1).2.events = 1 ∧
    pop_count (traced_unserialize 1 1 (fun _ => true) true (some ()) 1).2.events = 1 ∧
    push_count (traced_serialize 1 1 (fun t => t != 0) (some ()) 1).2.events = 0 ∧
    pop_count (traced_serialize 1 1 (fun t => t != 0) (some ()) 1).2.events = 0 := by
  decide

/-! ### Drift accumulator invariant -/

/-- C14: starting from `osd_start_audio_stream` (accumulator 0) with a non-zero
rate, rates being non-negative and the frame rate positive, and over exact
rational arithmetic: after every `osd_update_audio_stream` call with a non-null
buffer (the call that follows any number `N` of earlier ones) the drift
accumulator lies in `[0, 1)`, and the correction added to the sample count of the
next frame (the returned count minus the nominal count) is 0 or 1. -/
theorem drift_accumulator_invariant (stereo : Int) (s : AudioState) (N : Nat)
    (hfps : 0 < s.frames_per_second) (hcfg : 0 ≤ s.samplerate)
    (hrate : (osd_start_audio_stream stereo s).2.sample_rate ≠ 0) :
    (osd_start_audio_stream stereo s).2.delta_samples = 0 ∧
    0 ≤ (osd_update_audio_stream true
          (run_updates N (osd_start_audio_stream stereo s).2)).2.delta_samples ∧
    (osd_update_audio_stream true
          (run_updates N (osd_start_audio_stream stereo s).2)).2.delta_samples < 1 ∧
    ((osd_update_audio_stream true (run_updates N (osd_start_audio_stream stereo s).2)).1
        = (osd_start_audio_stream stereo s).1 + 0 ∨
      (osd_update_audio_stream true (run_updates N (osd_start_audio_stream stereo s).2)).1
        = (osd_start_audio_stream stereo s).1 + 1) := by
  obtain ⟨h1, -, h3, -, -, h6, -⟩ := start_fields stereo s
  have hpos : 0 < (osd_start_audio_stream stereo s).2.sample_rate := by
    have hge : 0 ≤ effective_rate s := by
      unfold effective_rate
      split_ifs
      · norm_num
      · exact hcfg
    rw [h1] at hrate ⊢
    omega
  obtain ⟨hφ0, hφ1⟩ := ratio_frac_bounds _ _ hpos hfps
  have hrun := pacing_run _ _ _ (emitted_total s) hrate hφ0 hφ1 N 0 _ (start_inv stereo s)
  have hstep := pacing_step _ _ _ (emitted_total s) (0 + N) _ hrate hφ0 hφ1 hrun
  obtain ⟨-, -, -, g4, g5, g6, g7, -⟩ := hstep
  have hk := (update_keeps (run_updates N (osd_start_audio_stream stereo s).2) true).2.2.2
  rw [hk] at g6 g7
  have hnom : (osd_start_audio_stream stereo s).1
      = c_int_cast (((osd_start_audio_stream stereo s).2.sample_rate : ℚ) / s.frames_per_second) := by
    rw [h6, h1]
  rw [← hnom] at g6 g7
  refine ⟨h3, g4, g5, ?_⟩
  omega

/-- Witness of C14: 44100 Hz at 57 frames per second, the fourth delivery. -/
theorem drift_accumulator_invariant_witness :
    0 ≤ (osd_update_audio_stream true
          (run_updates 3 (osd_start_audio_stream 1 audio_example).2)).2.delta_samples ∧
    (osd_update_audio_stream true
          (run_updates 3 (osd_start_audio_stream 1 audio_example).2)).2.delta_samples < 1 :=
  ⟨(drift_accumulator_invariant 1 audio_example 3 (by simp [audio_example])
      (by simp [audio_example]) (by rw [audio_example_rate]; decide)).2.1,
   (drift_accumulator_invariant 1 audio_example 3 (by simp [audio_example])
      (by simp [audio_example]) (by rw [audio_example_rate]; decide)).2.2.1⟩

end Mame2003
